import Mathlib

/-!
# SensorSphere: the HTTP/gRPC gateway

A shallow embedding of the request path of `koneal2013/sensorsphere`:

* `internal/models/models.go`   — the domain values (`models.*`);
* `internal/db/database.go`     — the `Database` interface (`db.Database`), as state-passing
  functions over an arbitrary storage state, together with a record of the calls made;
* `internal/server/http.go`     — the `SensorSphere.Handle*` operations and the route table;
* `internal/server/grpc.go`     — the gRPC methods and the wire conversions;
* `internal/middleware/adaptor` — `GenericDecoder`, `GenericEncoder`, `GenericHttpAdaptor`.

Go values are rendered as follows.  A pointer `*T` is an `Option T` (`none` is `nil`); a
slice that may be `nil` is an `Option (List _)` (a slice of pointers holds `Option`s); a
`map[string]string` is a list of entries; an `error` result is an `Option GoError`; a
`float64` is its IEEE-754 binary64 bit pattern; a Go multiple return `(x, err)` is a pair;
code that may dereference a nil pointer returns an `Outcome`.

The libraries the gateway calls are modelled as far as its behaviour depends on them:
`encoding/json` (reading the first value of a body, storing it into the input types of the
sensor routes, writing the output types), `strconv` (decimal text of a `float64`),
`mapstructure.Decode` on route variables, `http.Error` and the response writer, and the
route matching of `gorilla/mux`.  Tracing spans (`HttpTracer.Start` / `span.End`) do not
influence results and are left out.
-/

namespace Sensorsphere

/-! ## Go base values -/

/-- A Go `error` value: the `io.EOF` sentinel (compared by identity in the source), an
error carrying a message (`fmt.Errorf`, library and collaborator errors), or a gRPC status
error (`status.New(code, msg).Err()`). -/
inductive GoError where
  | EOF : GoError
  | New (msg : String) : GoError
  | Status (code : Nat) (msg : String) : GoError
deriving DecidableEq, Repr

namespace codes

/-- `codes.Unknown`. -/
def Unknown : Nat := 2

/-- `Code.String`. -/
def name (code : Nat) : String :=
  (["OK", "Canceled", "Unknown", "InvalidArgument", "DeadlineExceeded", "NotFound",
    "AlreadyExists", "PermissionDenied", "ResourceExhausted", "FailedPrecondition",
    "Aborted", "OutOfRange", "Unimplemented", "Internal", "Unavailable", "DataLoss",
    "Unauthenticated"].get? code).getD ("Code(" ++ toString code ++ ")")

end codes

deriving instance DecidableEq for Except

/-- The method `Error()` of a Go error. -/
def GoError.Error : GoError → String
  | .EOF => "EOF"
  | .New msg => msg
  | .Status code msg => "rpc error: code = " ++ codes.name code ++ " desc = " ++ msg

/-- A `float64`: sign bit, biased exponent (11 bits) and fraction (52 bits). -/
structure Float64 where
  sign : Bool
  exponent : Fin 2048
  fraction : Fin 4503599627370496
deriving DecidableEq, Repr

/-- Positive zero, the zero value of `float64`. -/
def Float64.zero : Float64 := ⟨false, 0, 0⟩

/-- Go `x == 0.0`: true for both signed zeros and for nothing else. -/
def Float64.eqZero (x : Float64) : Bool :=
  x.exponent.val == 0 && x.fraction.val == 0

/-- The location a `time.Time` presents its instant in (UTC, or a named zone with an offset in
seconds east of UTC). -/
inductive TimeLocation where
  | UTC : TimeLocation
  | zone (name : String) (offset : Int) : TimeLocation
deriving DecidableEq, Repr

/-- A `time.Time`: seconds since January 1, year 1 00:00:00 UTC (an `int64`), nanoseconds
within the second, and the presentation location.  The monotonic clock reading a `Time` may
carry is left out: it takes no part in `IsZero`, `Unix`, `Nanosecond` or the encodings. -/
structure Time where
  sec : Int
  nsec : Fin 1000000000
  loc : TimeLocation
deriving DecidableEq, Repr

/-- The zero value of `time.Time`. -/
def Time.zero : Time := ⟨0, 0, .UTC⟩

/-- `Time.IsZero`: the instant is January 1, year 1, 00:00:00 UTC. -/
def Time.IsZero (t : Time) : Bool :=
  t.sec == 0 && t.nsec.val == 0

/-! ## `internal/models` -/

namespace models

/-- `models.Location`; the fields are declared in this order in the source. -/
structure Location where
  Longitude : Float64
  Latitude : Float64
deriving DecidableEq, Repr

/-- `models.Sensor`; `Tags` is a slice, `none` being the `nil` slice. -/
structure Sensor where
  Name : String
  Location : Location
  Tags : Option (List String)
deriving DecidableEq, Repr

/-- `models.SensorReading`. -/
structure SensorReading where
  SensorName : String
  Time : Time
  Value : Float64
deriving DecidableEq, Repr

/-- `models.TimeRangeQuery`. -/
structure TimeRangeQuery where
  StartTime : Time
  EndTime : Time
  SensorName : String
deriving DecidableEq, Repr

/-- The zero value `models.Location{}`. -/
def Location.zero : Location := ⟨Float64.zero, Float64.zero⟩

/-- The zero value `models.Sensor{}`. -/
def Sensor.zero : Sensor := ⟨"", Location.zero, none⟩

/-- The zero value `models.SensorReading{}`. -/
def SensorReading.zero : SensorReading := ⟨"", Time.zero, Float64.zero⟩

/-- The zero value `models.TimeRangeQuery{}`. -/
def TimeRangeQuery.zero : TimeRangeQuery := ⟨Time.zero, Time.zero, ""⟩

end models

/-! ## `internal/db`: the storage collaborator -/

namespace db

/-- One invocation of a `Database` method, with the argument it received. -/
inductive Call where
  | CreateSensor (newSensor : models.Sensor)
  | GetSensor (sensorName : String)
  | UpdateSensor (updatedSensor : models.Sensor)
  | GetNearestSensor (location : models.Location)
  | CreateSensorReading (reading : models.SensorReading)
  | GetSensorReadingsForTimeRange (timeRange : models.TimeRangeQuery)
deriving DecidableEq, Repr

/-- The query methods of the `Database` interface, over a storage state `σ`.  Each returns
the Go result pair and the next storage state. -/
structure Database (σ : Type) where
  CreateSensor : models.Sensor → σ → (Option models.Sensor × Option GoError) × σ
  GetSensor : String → σ → (Option models.Sensor × Option GoError) × σ
  UpdateSensor : models.Sensor → σ → (Int × Option GoError) × σ
  GetNearestSensor : models.Location → σ → (Option models.Sensor × Option GoError) × σ
  CreateSensorReading :
    models.SensorReading → σ → (Option models.SensorReading × Option GoError) × σ
  GetSensorReadingsForTimeRange :
    models.TimeRangeQuery → σ →
      (Option (List (Option models.SensorReading)) × Option GoError) × σ

/-- The storage state together with the calls the collaborator has received so far. -/
structure Conn (σ : Type) where
  state : σ
  calls : List Call

/-- Invoke `CreateSensor` on the collaborator, recording the call. -/
def Database.doCreateSensor {σ : Type} (d : Database σ) (s : models.Sensor) (c : Conn σ) :
    (Option models.Sensor × Option GoError) × Conn σ :=
  ((d.CreateSensor s c.state).1, ⟨(d.CreateSensor s c.state).2, c.calls ++ [.CreateSensor s]⟩)

/-- Invoke `GetSensor` on the collaborator, recording the call. -/
def Database.doGetSensor {σ : Type} (d : Database σ) (n : String) (c : Conn σ) :
    (Option models.Sensor × Option GoError) × Conn σ :=
  ((d.GetSensor n c.state).1, ⟨(d.GetSensor n c.state).2, c.calls ++ [.GetSensor n]⟩)

/-- Invoke `UpdateSensor` on the collaborator, recording the call. -/
def Database.doUpdateSensor {σ : Type} (d : Database σ) (s : models.Sensor) (c : Conn σ) :
    (Int × Option GoError) × Conn σ :=
  ((d.UpdateSensor s c.state).1, ⟨(d.UpdateSensor s c.state).2, c.calls ++ [.UpdateSensor s]⟩)

/-- Invoke `GetNearestSensor` on the collaborator, recording the call. -/
def Database.doGetNearestSensor {σ : Type} (d : Database σ) (l : models.Location)
    (c : Conn σ) : (Option models.Sensor × Option GoError) × Conn σ :=
  ((d.GetNearestSensor l c.state).1,
    ⟨(d.GetNearestSensor l c.state).2, c.calls ++ [.GetNearestSensor l]⟩)

/-- Invoke `CreateSensorReading` on the collaborator, recording the call. -/
def Database.doCreateSensorReading {σ : Type} (d : Database σ) (r : models.SensorReading)
    (c : Conn σ) : (Option models.SensorReading × Option GoError) × Conn σ :=
  ((d.CreateSensorReading r c.state).1,
    ⟨(d.CreateSensorReading r c.state).2, c.calls ++ [.CreateSensorReading r]⟩)

/-- Invoke `GetSensorReadingsForTimeRange` on the collaborator, recording the call. -/
def Database.doGetSensorReadingsForTimeRange {σ : Type} (d : Database σ)
    (q : models.TimeRangeQuery) (c : Conn σ) :
    (Option (List (Option models.SensorReading)) × Option GoError) × Conn σ :=
  ((d.GetSensorReadingsForTimeRange q c.state).1,
    ⟨(d.GetSensorReadingsForTimeRange q c.state).2,
      c.calls ++ [.GetSensorReadingsForTimeRange q]⟩)

/-- A collaborator that echoes its input, in the manner of the mock of `http_test.go`: it
returns the sensor or reading it was handed, one affected row, and no readings. -/
def echo : Database Unit where
  CreateSensor := fun s st => ((some s, none), st)
  GetSensor := fun n st => ((some ⟨n, models.Location.zero, none⟩, none), st)
  UpdateSensor := fun _ st => ((1, none), st)
  GetNearestSensor := fun l st => ((some ⟨"Test Sensor", l, none⟩, none), st)
  CreateSensorReading := fun r st => ((some r, none), st)
  GetSensorReadingsForTimeRange := fun _ st => ((some [], none), st)

/-- A collaborator whose `CreateSensor` returns the given sensor whatever it is handed, and
that otherwise answers as `echo` does. -/
def returning (stored : models.Sensor) : Database Unit where
  CreateSensor := fun _ st => ((some stored, none), st)
  GetSensor := echo.GetSensor
  UpdateSensor := echo.UpdateSensor
  GetNearestSensor := echo.GetNearestSensor
  CreateSensorReading := echo.CreateSensorReading
  GetSensorReadingsForTimeRange := echo.GetSensorReadingsForTimeRange

/-- A fresh connection: no call recorded yet. -/
def fresh : Conn Unit := ⟨(), []⟩

end db

/-! ## `internal/server/http.go`: the domain operations -/

namespace server

/-- The error every failed validation returns: `fmt.Errorf("missing required fields")`. -/
def missingRequiredFields : GoError := .New "missing required fields"

namespace SensorSphere

/-- `(*SensorSphere).HandleCreateSensor`. -/
def HandleCreateSensor {σ : Type} (database : db.Database σ) (input : models.Sensor)
    (c : db.Conn σ) : (Option models.Sensor × Option GoError) × db.Conn σ :=
  if input.Name = "" ∨ input.Location.Latitude.eqZero = true
      ∨ input.Location.Longitude.eqZero = true ∨ input.Tags = none then
    ((none, some missingRequiredFields), c)
  else
    match database.doCreateSensor input c with
    | ((_, some err), c1) => ((some models.Sensor.zero, some err), c1)
    | ((sensor, none), c1) => ((sensor, none), c1)

/-- `(*SensorSphere).HandleGetSensor`; the input is a `map[string]string`. -/
def HandleGetSensor {σ : Type} (database : db.Database σ) (input : List (String × String))
    (c : db.Conn σ) : (Option models.Sensor × Option GoError) × db.Conn σ :=
  match input.lookup "name" with
  | none => ((none, some missingRequiredFields), c)
  | some sensorName =>
    match database.doGetSensor sensorName c with
    | ((_, some err), c1) => ((none, some err), c1)
    | ((sensor, none), c1) => ((sensor, none), c1)

/-- `(*SensorSphere).HandleGetSensorReadingsForTimeRange`. -/
def HandleGetSensorReadingsForTimeRange {σ : Type} (database : db.Database σ)
    (input : models.TimeRangeQuery) (c : db.Conn σ) :
    (Option (List (Option models.SensorReading)) × Option GoError) × db.Conn σ :=
  if input.SensorName = "" ∨ input.EndTime.IsZero = true ∨ input.StartTime.IsZero = true then
    ((none, some missingRequiredFields), c)
  else
    match database.doGetSensorReadingsForTimeRange input c with
    | ((_, some err), c1) => ((none, some err), c1)
    | ((sensorReadings, none), c1) => ((sensorReadings, none), c1)

/-- `(*SensorSphere).HandleUpdateSensor`. -/
def HandleUpdateSensor {σ : Type} (database : db.Database σ) (input : models.Sensor)
    (c : db.Conn σ) : (Int × Option GoError) × db.Conn σ :=
  if input.Name = "" ∨ input.Location.Latitude.eqZero = true
      ∨ input.Location.Longitude.eqZero = true ∨ input.Tags = none then
    ((0, some missingRequiredFields), c)
  else
    match database.doUpdateSensor input c with
    | ((_, some err), c1) => ((0, some err), c1)
    | ((rows, none), c1) => ((rows, none), c1)

/-- `(*SensorSphere).HandleGetNearestSensor`. -/
def HandleGetNearestSensor {σ : Type} (database : db.Database σ) (input : models.Location)
    (c : db.Conn σ) : (Option models.Sensor × Option GoError) × db.Conn σ :=
  if input.Latitude.eqZero = true ∨ input.Longitude.eqZero = true then
    ((none, some missingRequiredFields), c)
  else
    match database.doGetNearestSensor input c with
    | ((_, some err), c1) => ((some models.Sensor.zero, some err), c1)
    | ((sensor, none), c1) => ((sensor, none), c1)

/-- `(*SensorSphere).HandleCreateSensorReading`. -/
def HandleCreateSensorReading {σ : Type} (database : db.Database σ)
    (reading : models.SensorReading) (c : db.Conn σ) :
    (Option models.SensorReading × Option GoError) × db.Conn σ :=
  if reading.SensorName = "" ∨ reading.Value.eqZero = true then
    ((none, some missingRequiredFields), c)
  else
    match database.doCreateSensorReading reading c with
    | ((_, some err), c1) => ((none, some err), c1)
    | ((sensorReading, none), c1) => ((sensorReading, none), c1)

end SensorSphere

end server

/-! ## `internal/server/grpc.go`: wire messages, conversions and the gRPC methods -/

/-- The result of running Go code that may dereference a nil pointer: a normal return, or a
run-time panic. -/
inductive Outcome (α : Type) where
  | returned (a : α) : Outcome α
  | panic (msg : String) : Outcome α
deriving DecidableEq, Repr

/-- Sequencing of Go code: a panic cuts the rest short. -/
def Outcome.andThen {α β : Type} (x : Outcome α) (f : α → Outcome β) : Outcome β :=
  match x with
  | .returned a => f a
  | .panic msg => .panic msg

/-- The error a gRPC method handed back to its caller, if it returned one. -/
def Outcome.returnedError {α : Type} : Outcome (α × Option GoError) → Option GoError
  | .returned (_, err) => err
  | .panic _ => none

/-- The panic of reading a field through a nil pointer. -/
def nilDereference : String :=
  "runtime error: invalid memory address or nil pointer dereference"

/-- Two-complement wrap-around of `int64` arithmetic. -/
def wrapInt64 (x : Int) : Int :=
  (x + 9223372036854775808) % 18446744073709551616 - 9223372036854775808

/-- The constant `unixToInternal` of package `time`: seconds from year 1 to 1970. -/
def unixToInternal : Int := 62135596800

/-- `time.Unix(sec, nsec).UTC()`: nanoseconds outside `[0, 1e9)` are carried into the
seconds (Go integer division truncates toward zero). -/
def Time.UnixUTC (sec nsec : Int) : Time :=
  let n := Int.tdiv nsec 1000000000
  let sec1 := if nsec < 0 ∨ nsec ≥ 1000000000 then wrapInt64 (sec + n) else sec
  let nsec1 := if nsec < 0 ∨ nsec ≥ 1000000000 then nsec - n * 1000000000 else nsec
  let sec2 := if nsec1 < 0 then wrapInt64 (sec1 - 1) else sec1
  let nsec2 := if nsec1 < 0 then nsec1 + 1000000000 else nsec1
  ⟨wrapInt64 (sec2 + unixToInternal), Fin.ofNat nsec2.toNat, .UTC⟩

/-- `Time.Unix()`: seconds since 1970. -/
def Time.Unix (t : Time) : Int := wrapInt64 (t.sec - unixToInternal)

/-- `Time.Nanosecond()`. -/
def Time.Nanosecond (t : Time) : Int := t.nsec.val

namespace timestamppb

/-- Modelled from the spec: the standard protobuf timestamp message (`Seconds int64`,
`Nanos int32`) that the wire messages use for `time`, `startTime` and `endTime`. -/
structure Timestamp where
  Seconds : Int
  Nanos : Int
deriving DecidableEq, Repr

/-- `(*Timestamp).AsTime`; the getters read a nil message as zero. -/
def Timestamp.AsTime (x : Option Timestamp) : Time :=
  match x with
  | none => Time.UnixUTC 0 0
  | some ts => Time.UnixUTC ts.Seconds ts.Nanos

/-- `timestamppb.New`. -/
def New (t : Time) : Option Timestamp := some ⟨t.Unix, t.Nanosecond⟩

end timestamppb

namespace grpc_api

/-- Modelled from the spec: the wire `Location` message of `api/v1/grpc`. -/
structure Location where
  Longitude : Float64
  Latitude : Float64
deriving DecidableEq, Repr

/-- Modelled from the spec: the wire `Sensor` message of `api/v1/grpc`; its `Location`
submessage is a pointer and may be absent. -/
structure Sensor where
  Name : String
  Location : Option Location
  Tags : Option (List String)
deriving DecidableEq, Repr

/-- Modelled from the spec: the wire `GetSensorRequest` message of `api/v1/grpc`. -/
structure GetSensorRequest where
  Name : String
deriving DecidableEq, Repr

/-- Modelled from the spec: the wire `UpdateSensorResponse` message of `api/v1/grpc`. -/
structure UpdateSensorResponse where
  RowsAffected : Int
deriving DecidableEq, Repr

/-- Modelled from the spec: the wire `SensorReading` message of `api/v1/grpc`. -/
structure SensorReading where
  SensorName : String
  Value : Float64
  Time : Option timestamppb.Timestamp
deriving DecidableEq, Repr

/-- Modelled from the spec: the wire `TimeRangeQuery` message of `api/v1/grpc`. -/
structure TimeRangeQuery where
  SensorName : String
  StartTime : Option timestamppb.Timestamp
  EndTime : Option timestamppb.Timestamp
deriving DecidableEq, Repr

/-- Modelled from the spec: the wire `SensorReadingsResponse` message of `api/v1/grpc`. -/
structure SensorReadingsResponse where
  SensorReadings : List (Option SensorReading)
deriving DecidableEq, Repr

end grpc_api

namespace server

/-- `apiSensorToModel`: reads `in.Location.Longitude` through the submessage pointer. -/
def apiSensorToModel (input : grpc_api.Sensor) : Outcome models.Sensor :=
  match input.Location with
  | none => .panic nilDereference
  | some l => .returned ⟨input.Name, ⟨l.Longitude, l.Latitude⟩, input.Tags⟩

/-- `modelSensorToAPI`: reads the fields through the `*models.Sensor` it is handed. -/
def modelSensorToAPI (sensor : Option models.Sensor) : Outcome grpc_api.Sensor :=
  match sensor with
  | none => .panic nilDereference
  | some s =>
    .returned ⟨s.Name, some ⟨s.Location.Longitude, s.Location.Latitude⟩, s.Tags⟩

/-- `apiLocationToModel`. -/
def apiLocationToModel (input : grpc_api.Location) : models.Location :=
  ⟨input.Longitude, input.Latitude⟩

/-- `apiReadingToModel`. -/
def apiReadingToModel (input : grpc_api.SensorReading) : models.SensorReading :=
  ⟨input.SensorName, timestamppb.Timestamp.AsTime input.Time, input.Value⟩

/-- `modelReadingToAPI`: reads the fields through the `*models.SensorReading`. -/
def modelReadingToAPI (reading : Option models.SensorReading) :
    Outcome grpc_api.SensorReading :=
  match reading with
  | none => .panic nilDereference
  | some r => .returned ⟨r.SensorName, r.Value, timestamppb.New r.Time⟩

/-- `apiTimeRangeQueryToModel`. -/
def apiTimeRangeQueryToModel (input : grpc_api.TimeRangeQuery) : models.TimeRangeQuery :=
  ⟨timestamppb.Timestamp.AsTime input.StartTime, timestamppb.Timestamp.AsTime input.EndTime,
    input.SensorName⟩

/-- `modelReadingsToAPI`: converts the readings one by one, in order. -/
def modelReadingsToAPI :
    List (Option models.SensorReading) → Outcome (List (Option grpc_api.SensorReading))
  | [] => .returned []
  | reading :: rest =>
    (modelReadingToAPI reading).andThen fun r =>
      (modelReadingsToAPI rest).andThen fun rs => .returned (some r :: rs)

namespace grpcServer

/-- `(*grpcServer).CreateSensor`. -/
def CreateSensor {σ : Type} (database : db.Database σ) (input : grpc_api.Sensor)
    (c : db.Conn σ) : Outcome (Option grpc_api.Sensor × Option GoError) × db.Conn σ :=
  match apiSensorToModel input with
  | .panic msg => (.panic msg, c)
  | .returned newSensor =>
    match database.doCreateSensor newSensor c with
    | ((_, some err), c1) => (.returned (none, some err), c1)
    | ((sensor, none), c1) =>
      ((modelSensorToAPI sensor).andThen fun s => .returned (some s, none), c1)

/-- `(*grpcServer).GetSensor`. -/
def GetSensor {σ : Type} (database : db.Database σ) (input : grpc_api.GetSensorRequest)
    (c : db.Conn σ) : Outcome (Option grpc_api.Sensor × Option GoError) × db.Conn σ :=
  match database.doGetSensor input.Name c with
  | ((_, some err), c1) => (.returned (none, some err), c1)
  | ((sensor, none), c1) =>
    ((modelSensorToAPI sensor).andThen fun s => .returned (some s, none), c1)

/-- `(*grpcServer).UpdateSensor`. -/
def UpdateSensor {σ : Type} (database : db.Database σ) (input : grpc_api.Sensor)
    (c : db.Conn σ) :
    Outcome (Option grpc_api.UpdateSensorResponse × Option GoError) × db.Conn σ :=
  match apiSensorToModel input with
  | .panic msg => (.panic msg, c)
  | .returned updatedSensor =>
    match database.doUpdateSensor updatedSensor c with
    | ((_, some err), c1) => (.returned (none, some err), c1)
    | ((rows, none), c1) => (.returned (some ⟨rows⟩, none), c1)

/-- `(*grpcServer).GetNearestSensor`. -/
def GetNearestSensor {σ : Type} (database : db.Database σ) (input : grpc_api.Location)
    (c : db.Conn σ) : Outcome (Option grpc_api.Sensor × Option GoError) × db.Conn σ :=
  match database.doGetNearestSensor (apiLocationToModel input) c with
  | ((_, some err), c1) => (.returned (none, some err), c1)
  | ((sensor, none), c1) =>
    ((modelSensorToAPI sensor).andThen fun s => .returned (some s, none), c1)

/-- `(*grpcServer).CreateSensorReading`. -/
def CreateSensorReading {σ : Type} (database : db.Database σ)
    (input : grpc_api.SensorReading) (c : db.Conn σ) :
    Outcome (Option grpc_api.SensorReading × Option GoError) × db.Conn σ :=
  match database.doCreateSensorReading (apiReadingToModel input) c with
  | ((_, some err), c1) => (.returned (none, some err), c1)
  | ((sensorReading, none), c1) =>
    ((modelReadingToAPI sensorReading).andThen fun r => .returned (some r, none), c1)

/-- `(*grpcServer).GetSensorReadingsForTimeRange`; ranging over a nil slice yields an empty
response list. -/
def GetSensorReadingsForTimeRange {σ : Type} (database : db.Database σ)
    (input : grpc_api.TimeRangeQuery) (c : db.Conn σ) :
    Outcome (Option grpc_api.SensorReadingsResponse × Option GoError) × db.Conn σ :=
  match database.doGetSensorReadingsForTimeRange (apiTimeRangeQueryToModel input) c with
  | ((_, some err), c1) => (.returned (none, some err), c1)
  | ((sensorReadings, none), c1) =>
    ((modelReadingsToAPI (sensorReadings.getD [])).andThen fun rs =>
      .returned (some ⟨rs⟩, none), c1)

end grpcServer

end server

/-! ## `encoding/json`: reading one value from a request body

`json.Decoder.Decode` first scans one complete JSON value from the input (`readValue`) and
then stores it into the destination.  The scan stops at the end of the first value; what
follows it in the body is not looked at. -/

namespace json

/-- A scanned JSON value.  A number keeps its literal, as the decoder converts it only when
it is stored into a destination. -/
inductive Value where
  | null : Value
  | bool (b : Bool) : Value
  | number (lit : String) : Value
  | string (s : String) : Value
  | array (elems : List Value) : Value
  | object (members : List (String × Value)) : Value
deriving Repr

/-- Progress of a scan: a result and the unread input, or the message of the error that
ended it.  The errors of the scanner are `*json.SyntaxError` values and
`io.ErrUnexpectedEOF`; none of them is the `io.EOF` sentinel. -/
inductive Scan (α : Type) where
  | ok (a : α) (rest : List Char) : Scan α
  | err (msg : String) : Scan α
deriving Repr

/-- The message of `io.ErrUnexpectedEOF`: the input ended inside a value. -/
def ErrUnexpectedEOF : String := "unexpected EOF"

/-- The first byte of the UTF-8 encoding of a character.  The scanner reads bytes, so the
byte it refuses is the first one of a character outside ASCII. -/
def leadByte (c : Char) : Nat :=
  if c.toNat < 128 then c.toNat
  else if c.toNat < 2048 then 192 + c.toNat / 64
  else if c.toNat < 65536 then 224 + c.toNat / 4096
  else 240 + c.toNat / 262144

/-- A digit of lower-case hexadecimal. -/
def lowerHex (n : Nat) : Char :=
  if n < 10 then Char.ofNat (48 + n) else Char.ofNat (87 + n)

/-- What `strconv.Quote` writes between the quotes for the character with the value of a
byte, the double quote apart: a backslash is doubled, a control character is escaped, and a
printable character of Latin-1 stands for itself. -/
def quotedByte (b : Nat) : String :=
  if b = 92 then "\\\\"
  else if b = 7 then "\\a"
  else if b = 8 then "\\b"
  else if b = 12 then "\\f"
  else if b = 10 then "\\n"
  else if b = 13 then "\\r"
  else if b = 9 then "\\t"
  else if b = 11 then "\\v"
  else if b < 32 ∨ b = 127 then String.mk ['\\', 'x', lowerHex (b / 16), lowerHex (b % 16)]
  else if b < 127 ∨ (161 ≤ b ∧ b ≠ 173) then String.singleton (Char.ofNat b)
  else String.mk ['\\', 'u', '0', '0', lowerHex (b / 16), lowerHex (b % 16)]

/-- `quoteChar` of the scanner: the refused byte between single quotes. -/
def scanner.quoteChar (c : Char) : String :=
  if c.toNat = 39 then "'\\''"
  else if c = '"' then "'\"'"
  else "'" ++ quotedByte (leadByte c) ++ "'"

/-- The message of a `*json.SyntaxError`: the offending character and where it was met. -/
def syntaxError (c : Char) (context : String) : String :=
  "invalid character " ++ scanner.quoteChar c ++ " " ++ context

/-- `maxNestingDepth`: how many arrays and objects may be open at once. -/
def maxNestingDepth : Nat := 10000

/-- `isSpace` of the scanner. -/
def isSpace (c : Char) : Bool :=
  c == ' ' || c == '\t' || c == '\r' || c == '\n'

/-- Drop leading white space. -/
def skipSpace : List Char → List Char
  | [] => []
  | c :: cs => if isSpace c then skipSpace cs else c :: cs

/-- Scan the rest of the literal `name` (`true`, `false`, `null`); the first argument is
what is left of it. -/
def scanLiteral (name : String) : List Char → List Char → Scan Unit
  | [], cs => .ok () cs
  | _ :: _, [] => .err ErrUnexpectedEOF
  | w :: ws, c :: cs =>
    if c = w then scanLiteral name ws cs
    else
      .err (syntaxError c
        ("in literal " ++ name ++ " (expecting '" ++ String.singleton w ++ "')"))

/-- The leading decimal digits of the input, and what follows them. -/
def scanDigits : List Char → List Char × List Char
  | [] => ([], [])
  | c :: cs =>
    if c.isDigit then ((c :: (scanDigits cs).1), (scanDigits cs).2) else ([], c :: cs)

/-- The optional exponent part of a number, after the digits of its mantissa. -/
def scanExponent (lit : List Char) : List Char → Scan (List Char)
  | e :: cs =>
    if e = 'e' ∨ e = 'E' then
      let signed : List Char × List Char :=
        match cs with
        | s :: cs1 => if s = '+' ∨ s = '-' then ([s], cs1) else ([], cs)
        | [] => ([], cs)
      match scanDigits signed.2 with
      | ([], []) => .err ErrUnexpectedEOF
      | ([], c :: _) => .err (syntaxError c "in exponent of numeric literal")
      | (ds, rest) => .ok (lit ++ e :: signed.1 ++ ds) rest
    else .ok lit (e :: cs)
  | [] => .ok lit []

/-- The optional fraction part of a number, then its exponent. -/
def scanFraction (lit : List Char) : List Char → Scan (List Char)
  | '.' :: cs =>
    match scanDigits cs with
    | ([], []) => .err ErrUnexpectedEOF
    | ([], c :: _) => .err (syntaxError c "after decimal point in numeric literal")
    | (ds, rest) => scanExponent (lit ++ '.' :: ds) rest
  | cs => scanExponent lit cs

/-- The integer part of a number (after an optional minus sign), then the rest of it. -/
def scanInteger (lit : List Char) : List Char → Scan (List Char)
  | [] => .err ErrUnexpectedEOF
  | c :: cs =>
    if c = '0' then scanFraction (lit ++ [c]) cs
    else if c.isDigit then
      scanFraction (lit ++ c :: (scanDigits cs).1) (scanDigits cs).2
    else .err (syntaxError c "in numeric literal")

/-- The value of a hexadecimal digit. -/
def hexDigit (c : Char) : Option Nat :=
  if c.isDigit then some (c.toNat - 48)
  else if 'a' ≤ c ∧ c ≤ 'f' then some (c.toNat - 87)
  else if 'A' ≤ c ∧ c ≤ 'F' then some (c.toNat - 55)
  else none

/-- The value of four hexadecimal digits. -/
def hex4 (a b c d : Char) : Option Nat :=
  match hexDigit a, hexDigit b, hexDigit c, hexDigit d with
  | some x, some y, some z, some w => some (((x * 16 + y) * 16 + z) * 16 + w)
  | _, _, _, _ => none

/-- The first of four characters that is not a hexadecimal digit. -/
def firstNonHex (a b c d : Char) : Char :=
  if (hexDigit a).isNone then a else if (hexDigit b).isNone then b
  else if (hexDigit c).isNone then c else d

/-- The character of a one-letter escape. -/
def escapeChar (c : Char) : Option Char :=
  if c = '"' then some '"' else if c = '\\' then some '\\' else if c = '/' then some '/'
  else if c = 'b' then some (Char.ofNat 8) else if c = 'f' then some (Char.ofNat 12)
  else if c = 'n' then some '\n' else if c = 'r' then some '\r'
  else if c = 't' then some '\t' else none

/-- The character a `\u` escape stands for: a high surrogate followed by an escaped low
surrogate is one character (`pair`), a lone surrogate is U+FFFD. -/
def unescapeRune (hi : Nat) (lo : Option Nat) : Char × Bool :=
  if 55296 ≤ hi ∧ hi < 56320 then
    match lo with
    | some l =>
      if 56320 ≤ l ∧ l < 57344 then
        (Char.ofNat (65536 + (hi - 55296) * 1024 + (l - 56320)), true)
      else (Char.ofNat 65533, false)
    | none => (Char.ofNat 65533, false)
  else if 56320 ≤ hi ∧ hi < 57344 then (Char.ofNat 65533, false)
  else (Char.ofNat hi, false)

/-- The hexadecimal value of the escape `\uXXXX` the input begins with, if it does. -/
def peekEscape : List Char → Option Nat
  | '\\' :: 'u' :: a :: b :: c :: d :: _ => hex4 a b c d
  | _ => none

/-- Scan a string after its opening quote, undoing the escapes.  The fuel bounds the number
of characters read. -/
def scanString : Nat → List Char → List Char → Scan String
  | 0, _, _ => .err ErrUnexpectedEOF
  | _ + 1, _, [] => .err ErrUnexpectedEOF
  | _ + 1, acc, '\"' :: cs => .ok (String.mk acc.reverse) cs
  | _ + 1, _, ['\\'] => .err ErrUnexpectedEOF
  | fuel + 1, acc, '\\' :: 'u' :: a :: b :: c :: d :: cs =>
    match hex4 a b c d with
    | none => .err (syntaxError (firstNonHex a b c d) "in \\u hexadecimal character escape")
    | some hi =>
      if (unescapeRune hi (peekEscape cs)).2 = true then
        scanString fuel ((unescapeRune hi (peekEscape cs)).1 :: acc) (cs.drop 6)
      else scanString fuel ((unescapeRune hi (peekEscape cs)).1 :: acc) cs
  | fuel + 1, acc, '\\' :: e :: cs =>
    if e = 'u' then
      match (cs.filter fun x => (hexDigit x).isNone) with
      | x :: _ => .err (syntaxError x "in \\u hexadecimal character escape")
      | [] => .err ErrUnexpectedEOF
    else
      match escapeChar e with
      | some r => scanString fuel (r :: acc) cs
      | none => .err (syntaxError e "in string escape code")
  | fuel + 1, acc, c :: cs =>
    if c.toNat < 32 then .err (syntaxError c "in string literal")
    else scanString fuel (c :: acc) cs

mutual

/-- Scan one value; `depth` is the number of arrays and objects open around it, and one more
than `maxNestingDepth` may not be opened.  The fuel bounds the number of nested scans;
`readValue` supplies more than any input can use. -/
def scanValue : Nat → Nat → List Char → Scan Value
  | 0, _, _ => .err ErrUnexpectedEOF
  | fuel + 1, depth, cs =>
    match skipSpace cs with
    | [] => .err ErrUnexpectedEOF
    | c :: rest =>
      if c = Char.ofNat 123 then
        if depth < maxNestingDepth then scanMembers fuel (depth + 1) true [] (skipSpace rest)
        else .err (syntaxError c "exceeded max depth")
      else if c = '[' then
        if depth < maxNestingDepth then scanElems fuel (depth + 1) true [] (skipSpace rest)
        else .err (syntaxError c "exceeded max depth")
      else if c = '"' then
        match scanString rest.length [] rest with
        | .ok s r => .ok (.string s) r
        | .err e => .err e
      else if c = '-' then
        match scanInteger [c] rest with
        | .ok lit r => .ok (.number (String.mk lit)) r
        | .err e => .err e
      else if c.isDigit then
        match scanInteger [] (c :: rest) with
        | .ok lit r => .ok (.number (String.mk lit)) r
        | .err e => .err e
      else if c = 't' then
        match scanLiteral "true" "rue".data rest with
        | .ok _ r => .ok (.bool true) r
        | .err e => .err e
      else if c = 'f' then
        match scanLiteral "false" "alse".data rest with
        | .ok _ r => .ok (.bool false) r
        | .err e => .err e
      else if c = 'n' then
        match scanLiteral "null" "ull".data rest with
        | .ok _ r => .ok .null r
        | .err e => .err e
      else .err (syntaxError c "looking for beginning of value")

/-- Scan the elements of an array, after `[` or after an element; `first` tells that no
element has been read yet, so that `]` may follow at once.  `depth` counts the array. -/
def scanElems : Nat → Nat → Bool → List Value → List Char → Scan Value
  | 0, _, _, _, _ => .err ErrUnexpectedEOF
  | fuel + 1, depth, first, acc, cs =>
    match cs with
    | [] => .err ErrUnexpectedEOF
    | c :: rest =>
      if c = ']' ∧ first = true then .ok (.array acc.reverse) rest
      else
        match scanValue fuel depth (c :: rest) with
        | .err e => .err e
        | .ok v r =>
          match skipSpace r with
          | [] => .err ErrUnexpectedEOF
          | d :: r1 =>
            if d = ',' then scanElems fuel depth false (v :: acc) (skipSpace r1)
            else if d = ']' then .ok (.array (v :: acc).reverse) r1
            else .err (syntaxError d "after array element")

/-- Scan the members of an object, after its opening brace or after a member.  `depth`
counts the object. -/
def scanMembers : Nat → Nat → Bool → List (String × Value) → List Char → Scan Value
  | 0, _, _, _, _ => .err ErrUnexpectedEOF
  | fuel + 1, depth, first, acc, cs =>
    match cs with
    | [] => .err ErrUnexpectedEOF
    | c :: rest =>
      if c = Char.ofNat 125 ∧ first = true then .ok (.object acc.reverse) rest
      else if c = '"' then
        match scanString rest.length [] rest with
        | .err e => .err e
        | .ok key r =>
          match skipSpace r with
          | [] => .err ErrUnexpectedEOF
          | d :: r1 =>
            if d = ':' then
              match scanValue fuel depth r1 with
              | .err e => .err e
              | .ok v r2 =>
                match skipSpace r2 with
                | [] => .err ErrUnexpectedEOF
                | x :: r3 =>
                  if x = ',' then
                    scanMembers fuel depth false ((key, v) :: acc) (skipSpace r3)
                  else if x = Char.ofNat 125 then .ok (.object ((key, v) :: acc).reverse) r3
                  else .err (syntaxError x "after object key:value pair")
            else .err (syntaxError d "after object key")
      else .err (syntaxError c "looking for beginning of object key string")

end

/-- What `Decoder.readValue` finds in a body. -/
inductive Read where
  | eof : Read
  | err (msg : String) : Read
  | value (v : Value) : Read
deriving Repr

/-- `Decoder.readValue` on a whole body: `io.EOF` when it holds nothing but white space,
otherwise the first value or the error met while scanning it. -/
def readValue (body : String) : Read :=
  match skipSpace body.data with
  | [] => .eof
  | cs =>
    match scanValue (2 * cs.length + 2) 0 cs with
    | .ok v _ => .value v
    | .err e => .err e

end json

/-! ## `strconv`: decimal text of a `float64`

`encoding/json` stores a number literal into a `float64` field with `strconv.ParseFloat`
(nearest value, ties to even) and writes a `float64` with the shortest decimal text that
reads back as the same value. -/

namespace strconv

/-- The number a run of decimal digits stands for. -/
def digitsValue (ds : List Char) : Nat :=
  ds.foldl (fun n c => n * 10 + (c.toNat - 48)) 0

/-- A decimal literal: sign, digits of the mantissa read as an integer, and power of ten. -/
structure Decimal where
  neg : Bool
  mant : Nat
  exp : Int
deriving DecidableEq, Repr

/-- Read the exponent part of a number literal (`e`, optional sign, digits). -/
def readExp : List Char → Int
  | [] => 0
  | _ :: s :: ds =>
    if s = '-' then - (digitsValue ds : Int)
    else if s = '+' then (digitsValue ds : Int)
    else (digitsValue (s :: ds) : Int)
  | [_] => 0

/-- Read a literal of the JSON number grammar. -/
def readDecimal (lit : List Char) : Decimal :=
  let neg := lit.head? = some '-'
  let body := if neg then lit.drop 1 else lit
  let intPart := (json.scanDigits body).1
  let afterInt := (json.scanDigits body).2
  let fracPart := if afterInt.head? = some '.' then (json.scanDigits (afterInt.drop 1)).1 else []
  let afterFrac :=
    if afterInt.head? = some '.' then (json.scanDigits (afterInt.drop 1)).2 else afterInt
  ⟨neg, digitsValue (intPart ++ fracPart), readExp afterFrac - (fracPart.length : Int)⟩

/-- The number of binary digits of a positive number. -/
def bitLength (n : Nat) : Nat := (Nat.toDigits 2 n).length

/-- The `float64` nearest to `num / den` (ties to even), or `none` when the quotient is
beyond the largest finite value. -/
def nearest (neg : Bool) (num den : Nat) : Option Float64 :=
  if num = 0 ∨ den = 0 then some ⟨neg, 0, 0⟩
  else
    let k : Int := (bitLength num : Int) - (bitLength den : Int)
    let ge : Bool := if k ≥ 0 then den * 2 ^ k.toNat ≤ num else den ≤ num * 2 ^ (-k).toNat
    let e0 : Int := (if ge then k else k - 1) - 52
    let e : Int := if e0 < -1074 then -1074 else e0
    let n1 : Nat := if e ≥ 0 then num else num * 2 ^ (-e).toNat
    let d1 : Nat := if e ≥ 0 then den * 2 ^ e.toNat else den
    let m0 : Nat := n1 / d1
    let r : Nat := n1 % d1
    let m1 : Nat := if d1 < 2 * r ∨ (2 * r = d1 ∧ m0 % 2 = 1) then m0 + 1 else m0
    let m : Nat := if m1 = 9007199254740992 then 4503599627370496 else m1
    let e2 : Int := if m1 = 9007199254740992 then e + 1 else e
    if m < 4503599627370496 then some ⟨neg, 0, Fin.ofNat m⟩
    else if e2 + 1075 ≥ 2047 then none
    else some ⟨neg, Fin.ofNat (e2 + 1075).toNat, Fin.ofNat (m - 4503599627370496)⟩

/-- `strconv.ParseFloat(lit, 64)` on a literal of the JSON number grammar; `none` is the
range error. -/
def ParseFloat (lit : String) : Option Float64 :=
  let d := readDecimal lit.data
  if d.exp ≥ 0 then nearest d.neg (d.mant * 10 ^ d.exp.toNat) 1
  else nearest d.neg d.mant (10 ^ (-d.exp).toNat)

/-- The integer significand of a finite value. -/
def significand (x : Float64) : Nat :=
  if x.exponent.val = 0 then x.fraction.val else 4503599627370496 + x.fraction.val

/-- The numerator of the magnitude of a finite value. -/
def magNum (x : Float64) : Nat :=
  if x.exponent.val ≥ 1075 then significand x * 2 ^ (x.exponent.val - 1075) else significand x

/-- The denominator of the magnitude of a finite value. -/
def magDen (x : Float64) : Nat :=
  if x.exponent.val = 0 then 2 ^ 1074
  else if x.exponent.val ≥ 1075 then 1 else 2 ^ (1075 - x.exponent.val)

/-- The least `j` from `j0` on, within the fuel, with `den ≤ num * 10 ^ j`. -/
def leastShift (num den : Nat) : Nat → Nat → Nat
  | 0, j => j
  | fuel + 1, j => if den ≤ num * 10 ^ j then j else leastShift num den fuel (j + 1)

/-- The decimal exponent `p` of a positive quotient: `10 ^ p ≤ num / den < 10 ^ (p + 1)`. -/
def decimalExponent (num den : Nat) : Int :=
  if den ≤ num then ((Nat.toDigits 10 (num / den)).length : Int) - 1
  else - (leastShift num den 400 1 : Int)

/-- Whether the decimal `c * 10 ^ (-s)` reads back as the magnitude of `x`. -/
def readsBack (x : Float64) (c : Nat) (s : Int) : Bool :=
  let back := if s ≥ 0 then nearest false c (10 ^ s.toNat) else nearest false (c * 10 ^ (-s).toNat) 1
  back == some ⟨false, x.exponent, x.fraction⟩

/-- Drop the trailing zeros of a digit string. -/
def trimZeros (ds : List Char) : List Char :=
  (ds.reverse.dropWhile fun c => c == '0').reverse

/-- The `n`-digit decimal just below the magnitude of `x` (scaled to an integer) and the
remainder test telling whether it is the nearer of the two `n`-digit neighbours. -/
def lowerDecimal (x : Float64) (p : Int) (n : Nat) : Nat × Bool :=
  let s : Int := (n : Int) - 1 - p
  let n1 : Nat := if s ≥ 0 then magNum x * 10 ^ s.toNat else magNum x
  let d1 : Nat := if s ≥ 0 then magDen x else magDen x * 10 ^ (-s).toNat
  (n1 / d1, 2 * (n1 % d1) < d1 || (2 * (n1 % d1) == d1 && (n1 / d1) % 2 == 0))

/-- The digits of the scaled decimal `c` (without trailing zeros) and the decimal exponent of
its first digit, when `n` digits were asked for. -/
def digitsOf (c : Nat) (p : Int) (n : Nat) : List Char × Int :=
  (trimZeros (Nat.toDigits 10 c), p + ((Nat.toDigits 10 c).length : Int) - n)

/-- Search, from `n` significant digits upward, the shortest decimal that reads back as the
magnitude of `x`; of the two `n`-digit neighbours the nearer one is tried first.  The fuel
is the number of further digits allowed: the search starts at one digit with fuel sixteen,
and the nearest decimal of seventeen digits always reads back. -/
def shortestFrom (x : Float64) (p : Int) : Nat → Nat → List Char × Int
  | 0, n =>
    digitsOf (if (lowerDecimal x p n).2 then (lowerDecimal x p n).1
      else (lowerDecimal x p n).1 + 1) p n
  | fuel + 1, n =>
    let lo := (lowerDecimal x p n).1
    let c1 : Nat := if (lowerDecimal x p n).2 then lo else lo + 1
    let c2 : Nat := if (lowerDecimal x p n).2 then lo + 1 else lo
    if readsBack x c1 ((n : Int) - 1 - p) then digitsOf c1 p n
    else if readsBack x c2 ((n : Int) - 1 - p) then digitsOf c2 p n
    else shortestFrom x p fuel (n + 1)

/-- The shortest digits of a finite non-zero value and the decimal exponent of the first. -/
def shortest (x : Float64) : List Char × Int :=
  shortestFrom x (decimalExponent (magNum x) (magDen x)) 16 1

/-- `FormatFloat(x, 'f', -1, 64)` of the magnitude, from the shortest digits. -/
def formatF (ds : List Char) (p : Int) : List Char :=
  if p < 0 then '0' :: '.' :: (List.replicate (-p - 1).toNat '0' ++ ds)
  else if (p + 1).toNat < ds.length then ds.take (p + 1).toNat ++ '.' :: ds.drop (p + 1).toNat
  else ds ++ List.replicate ((p + 1).toNat - ds.length) '0'

/-- `FormatFloat(x, 'e', -1, 64)` of the magnitude: at least two exponent digits. -/
def formatE (ds : List Char) (p : Int) : List Char :=
  let mantissa := if ds.length > 1 then ds.take 1 ++ '.' :: ds.drop 1 else ds
  let digits := Nat.toDigits 10 p.natAbs
  mantissa ++ 'e' :: (if p < 0 then '-' else '+') :: (if digits.length < 2 then '0' :: digits else digits)

end strconv

/-! ## `encoding/json`: writing values -/

namespace json

/-- Two lower-case hexadecimal digits. -/
def hex2 (n : Nat) : List Char :=
  [(Nat.digitChar (n / 16 % 16)), (Nat.digitChar (n % 16))]

/-- The text of one character inside a JSON string, as the encoder writes it (HTML-safe
escaping is on by default). -/
def quoteChar (c : Char) : List Char :=
  if c = '\"' then ['\\', '\"']
  else if c = '\\' then ['\\', '\\']
  else if c = '\n' then ['\\', 'n']
  else if c = '\r' then ['\\', 'r']
  else if c = '\t' then ['\\', 't']
  else if c.toNat = 8 then ['\\', 'b']
  else if c.toNat = 12 then ['\\', 'f']
  else if c.toNat < 32 ∨ c = '<' ∨ c = '>' ∨ c = '&' then
    '\\' :: 'u' :: '0' :: '0' :: hex2 c.toNat
  else if c.toNat = 8232 then "\\u2028".data
  else if c.toNat = 8233 then "\\u2029".data
  else [c]

/-- A Go string as a JSON string. -/
def quote (s : String) : String :=
  String.mk ('\"' :: (s.data.flatMap quoteChar ++ ['\"']))

/-- The `float64` constant `1e-6`. -/
def float1em6 : Float64 := ⟨false, 1003, 218766855499149⟩

/-- The `float64` constant `1e21`. -/
def float1e21 : Float64 := ⟨false, 1092, 3125794903879504⟩

/-- The order of magnitudes of finite values, read off the bit pattern. -/
def magnitudeKey (x : Float64) : Nat :=
  x.exponent.val * 4503599627370496 + x.fraction.val

/-- The encoder turns an exponent `e-0d` into `e-d`. -/
def cleanExponent (b : List Char) : List Char :=
  match b.reverse with
  | d :: z :: sgn :: e :: rest =>
    if e = 'e' ∧ sgn = '-' ∧ z = '0' then (d :: sgn :: e :: rest).reverse else b
  | _ => b

/-- The `float64` encoder: NaN and the infinities are unsupported values; other values are
written in fixed notation, or in exponent notation below `1e-6` and from `1e21` on. -/
def encodeFloat (x : Float64) : Except GoError String :=
  if x.exponent.val = 2047 then
    .error (.New ("json: unsupported value: " ++
      (if x.fraction.val ≠ 0 then "NaN" else if x.sign then "-Inf" else "+Inf")))
  else
    let sign : List Char := if x.sign then ['-'] else []
    if x.eqZero then .ok (String.mk (sign ++ ['0']))
    else if magnitudeKey x < magnitudeKey float1em6 ∨ magnitudeKey float1e21 ≤ magnitudeKey x then
      .ok (String.mk (sign ++
        cleanExponent (strconv.formatE (strconv.shortest x).1 (strconv.shortest x).2)))
    else
      .ok (String.mk (sign ++ strconv.formatF (strconv.shortest x).1 (strconv.shortest x).2))

/-- The `int64` encoder. -/
def encodeInt (n : Int) : Except GoError String :=
  .ok (if n < 0 then "-" ++ toString n.natAbs else toString n.natAbs)

/-- Join the encoded elements of an array with commas. -/
def joinComma : List String → String
  | [] => ""
  | [x] => x
  | x :: y :: rest => x ++ "," ++ joinComma (y :: rest)

/-- The encoder of `[]string`: `null` for the nil slice. -/
def encodeStrings (tags : Option (List String)) : String :=
  match tags with
  | none => "null"
  | some ts => "[" ++ joinComma (ts.map quote) ++ "]"

/-- The encoder of `models.Location`: the fields in the order of their declaration, under
the keys of their `json` tags. -/
def encodeLocation (l : models.Location) : Except GoError String :=
  match encodeFloat l.Longitude, encodeFloat l.Latitude with
  | .ok lon, .ok lat => .ok ("\x7b\"longitude\":" ++ lon ++ ",\"latitude\":" ++ lat ++ "\x7d")
  | .error e, _ => .error e
  | _, .error e => .error e

/-- The encoder of `models.Sensor`: the fields in the order of their declaration, under the
keys of their `json` tags. -/
def encodeSensor (s : models.Sensor) : Except GoError String :=
  match encodeLocation s.Location with
  | .ok loc =>
    .ok ("\x7b\"name\":" ++ quote s.Name ++ ",\"location\":" ++ loc ++ ",\"tags\":" ++
      encodeStrings s.Tags ++ "\x7d")
  | .error e => .error e

/-- The encoder of `*models.Sensor`: `null` for the nil pointer. -/
def encodeSensorPtr (s : Option models.Sensor) : Except GoError String :=
  match s with
  | none => .ok "null"
  | some v => encodeSensor v

/-! ### Storing a scanned value into a destination

A value that does not fit its destination is reported as an `UnmarshalTypeError`; the decoder
keeps the first such error and goes on storing the rest of the input. -/

/-- The name of a value in an `UnmarshalTypeError`. -/
def Value.kind : Value → String
  | .null => "null"
  | .bool _ => "bool"
  | .number _ => "number"
  | .string _ => "string"
  | .array _ => "array"
  | .object _ => "object"

/-- The message of an `*json.UnmarshalTypeError`. -/
def typeError (value dest goType : String) : String :=
  "json: cannot unmarshal " ++ value ++ " into Go " ++ dest ++ " of type " ++ goType

/-- Keep the first error. -/
def saveError {ε : Type} (saved new : Option ε) : Option ε :=
  match saved with
  | some e => some e
  | none => new

/-- Case folding of one character of an object key: ASCII letters, and the two characters
outside ASCII that fold to an ASCII letter (the Kelvin sign and the long s). -/
def foldChar (c : Char) : Char :=
  if c.toNat = 8490 then 'k' else if c.toNat = 383 then 's' else c.toLower

/-- Whether an object key names the field with the given `json` tag: after an exact match
the decoder accepts a match under case folding. -/
def keyMatches (key field : String) : Bool :=
  key.data.map foldChar == field.data.map foldChar

/-- Store into a `float64`. -/
def storeFloat (dest : String) (v : Value) (cur : Float64) : Float64 × Option String :=
  match v with
  | .null => (cur, none)
  | .number lit =>
    match strconv.ParseFloat lit with
    | some x => (x, none)
    | none => (cur, some (typeError ("number " ++ lit) dest "float64"))
  | other => (cur, some (typeError other.kind dest "float64"))

/-- Store into a `string`. -/
def storeString (dest : String) (v : Value) (cur : String) : String × Option String :=
  match v with
  | .null => (cur, none)
  | .string s => (s, none)
  | other => (cur, some (typeError other.kind dest "string"))

/-- Store the elements of an array into a `[]string`, one by one.  The decoder stores an
element into the slot the backing array of the slice has at its index, and a slot keeps what
it held when the element is `null` or not a string.  `slots` is what the backing array holds
from the index of the first element on; past its end a slot is empty. -/
def storeElems (dest : String) : List Value → List String → List String × Option String
  | [], _ => ([], none)
  | v :: vs, slots =>
    ((storeString dest v (slots.headD "")).1 :: (storeElems dest vs slots.tail).1,
      saveError (storeString dest v (slots.headD "")).2 (storeElems dest vs slots.tail).2)

/-- Store into a `[]string`.  Next to the slice, `spare` is what its backing array holds past
the end of the slice.  `null` sets the slice to nil; an empty array gives a new empty slice,
which is not nil; any other array is stored element by element into the backing array, and
the slice is cut or extended to the number of its elements. -/
def storeStrings (dest : String) (v : Value) (cur : Option (List String))
    (spare : List String) : (Option (List String) × List String) × Option String :=
  match v with
  | .null => ((none, []), none)
  | .array [] => ((some [], []), none)
  | .array elems =>
    ((some (storeElems dest elems (cur.getD [] ++ spare)).1,
        (cur.getD [] ++ spare).drop elems.length),
      (storeElems dest elems (cur.getD [] ++ spare)).2)
  | other => ((cur, spare), some (typeError other.kind dest "[]string"))

/-- Store one member of an object into a `models.Location`. -/
def storeLocationField (dest : String) (acc : models.Location × Option String)
    (kv : String × Value) : models.Location × Option String :=
  if keyMatches kv.1 "longitude" then
    (⟨(storeFloat (dest ++ ".longitude") kv.2 acc.1.Longitude).1, acc.1.Latitude⟩,
      saveError acc.2 (storeFloat (dest ++ ".longitude") kv.2 acc.1.Longitude).2)
  else if keyMatches kv.1 "latitude" then
    (⟨acc.1.Longitude, (storeFloat (dest ++ ".latitude") kv.2 acc.1.Latitude).1⟩,
      saveError acc.2 (storeFloat (dest ++ ".latitude") kv.2 acc.1.Latitude).2)
  else acc

/-- Store into a `models.Location`: the members of an object go to the fields their keys
name, in the order they come; other keys are skipped. -/
def storeLocation (dest field : String) (v : Value) (cur : models.Location) :
    models.Location × Option String :=
  match v with
  | .null => (cur, none)
  | .object members => members.foldl (storeLocationField field) (cur, none)
  | other => (cur, some (typeError other.kind dest "models.Location"))

/-- Store one member of an object into a `models.Sensor`.  Next to the sensor the decoder
has, in the backing array of `Tags`, what an earlier `tags` member of the same object left
past the end of the slice (`acc.1.2`). -/
def storeSensorField (acc : (models.Sensor × List String) × Option String)
    (kv : String × Value) : (models.Sensor × List String) × Option String :=
  if keyMatches kv.1 "name" then
    ((⟨(storeString "struct field Sensor.name" kv.2 acc.1.1.Name).1, acc.1.1.Location,
          acc.1.1.Tags⟩, acc.1.2),
      saveError acc.2 (storeString "struct field Sensor.name" kv.2 acc.1.1.Name).2)
  else if keyMatches kv.1 "location" then
    ((⟨acc.1.1.Name, (storeLocation "struct field Sensor.location"
          "struct field Sensor.location" kv.2 acc.1.1.Location).1, acc.1.1.Tags⟩, acc.1.2),
      saveError acc.2 (storeLocation "struct field Sensor.location"
        "struct field Sensor.location" kv.2 acc.1.1.Location).2)
  else if keyMatches kv.1 "tags" then
    ((⟨acc.1.1.Name, acc.1.1.Location,
          (storeStrings "struct field Sensor.tags" kv.2 acc.1.1.Tags acc.1.2).1.1⟩,
        (storeStrings "struct field Sensor.tags" kv.2 acc.1.1.Tags acc.1.2).1.2),
      saveError acc.2 (storeStrings "struct field Sensor.tags" kv.2 acc.1.1.Tags acc.1.2).2)
  else acc

/-- Store into a `models.Sensor`: the members of an object go to the fields their keys name,
in the order they come; other keys are skipped.  The backing array of `cur.Tags` holds
nothing past the end of the slice. -/
def storeSensor (v : Value) (cur : models.Sensor) : models.Sensor × Option String :=
  match v with
  | .null => (cur, none)
  | .object members =>
    ((members.foldl storeSensorField ((cur, []), none)).1.1,
      (members.foldl storeSensorField ((cur, []), none)).2)
  | other => (cur, some (typeError other.kind "value" "models.Sensor"))

/-- Assignment `m[k] = v` on a map held as a list of entries. -/
def mapAssign (m : List (String × String)) (k v : String) : List (String × String) :=
  (m.filter fun e => e.1 != k) ++ [(k, v)]

/-- Store one member of an object into a `map[string]string`: the entry is written even
when its value was not a string. -/
def storeMapEntry (acc : List (String × String) × Option String) (kv : String × Value) :
    List (String × String) × Option String :=
  (mapAssign acc.1 kv.1 (storeString "value" kv.2 "").1,
    saveError acc.2 (storeString "value" kv.2 "").2)

/-- Store into a `map[string]string`: `null` sets the map to nil, which holds no entry. -/
def storeMap (v : Value) (cur : List (String × String)) :
    List (String × String) × Option String :=
  match v with
  | .null => ([], none)
  | .object members => members.foldl storeMapEntry (cur, none)
  | other => (cur, some (typeError other.kind "value" "map[string]string"))

end json

/-! ## `mapstructure.Decode` of the route variables

The variables are a `map[string]string`.  A struct field takes the entry whose key is the
name of the field, or else one whose key equals it under case folding; a string entry fits a
`string` field and nothing else (weak typing is off). -/

namespace mapstructure

/-- The entry for a struct field: the key equal to the field name, or else the first key
equal to it without regard to case. -/
def entryFor (vars : List (String × String)) (field : String) : Option String :=
  match vars.lookup field with
  | some v => some v
  | none => (vars.find? fun e => e.1.toLower == field.toLower).map fun e => e.2

/-- The error of a string entry meeting a struct field. -/
def expectedMap (name : String) : String :=
  "'" ++ name ++ "' expected a map, got 'string'"

/-- The error of a string entry meeting a slice field. -/
def expectedSlice (name : String) : String :=
  "'" ++ name ++ "': source data must be an array or slice, got string"

/-- The error of a string entry meeting a `float64` field (weak typing is off). -/
def expectedFloat (name value : String) : String :=
  "'" ++ name ++ "' expected type 'float64', got unconvertible type 'string', value: '"
    ++ value ++ "'"

/-- The `*mapstructure.Error` of a decoding, nil when no field failed.  Its message counts
the errors of the fields and lists them, sorted, one to a line. -/
def decodeError (errors : List String) : Option GoError :=
  match errors with
  | [] => none
  | _ :: _ =>
    some (.New (toString errors.length ++ " error(s) decoding:\n\n"
      ++ "\n".intercalate (errors.map fun e => "* " ++ e)))

/-- Decode into a `map[string]string`: the entries are copied over. -/
def decodeMap (vars : List (String × String)) (cur : List (String × String)) :
    List (String × String) × Option GoError :=
  (vars.foldl (fun m e => json.mapAssign m e.1 e.2) cur, none)

/-- Decode into a `models.Sensor`: `Name` takes its entry, and an entry for `Location` or
for `Tags` is an error (listed in this order, which is the sorted one). -/
def decodeSensor (vars : List (String × String)) (cur : models.Sensor) :
    models.Sensor × Option GoError :=
  (⟨(entryFor vars "Name").getD cur.Name, cur.Location, cur.Tags⟩,
    decodeError
      (((entryFor vars "Location").map fun _ => expectedMap "Location").toList
        ++ ((entryFor vars "Tags").map fun _ => expectedSlice "Tags").toList))

/-- Decode into a `models.Location`: an entry for either field is an error (sorted, the one
of `Latitude` is listed first). -/
def decodeLocation (vars : List (String × String)) (cur : models.Location) :
    models.Location × Option GoError :=
  (cur,
    decodeError
      (((entryFor vars "Latitude").map fun v => expectedFloat "Latitude" v).toList
        ++ ((entryFor vars "Longitude").map fun v => expectedFloat "Longitude" v).toList))

end mapstructure

/-! ## `net/http`: requests and the response writer -/

namespace http

/-- `http.StatusOK`. -/
def StatusOK : Nat := 200

/-- `http.StatusBadRequest`. -/
def StatusBadRequest : Nat := 400

/-- `http.StatusInternalServerError`. -/
def StatusInternalServerError : Nat := 500

/-- The parts of an `*http.Request` the gateway reads: the method, the URL path, the whole
body, and the route variables that the router attached (`mux.Vars`). -/
structure Request where
  Method : String
  Path : String
  Body : String
  Vars : List (String × String)
deriving DecidableEq, Repr

/-- The state of an `http.ResponseWriter`: the header map, the status line once it has been
written, and the body written so far. -/
structure ResponseWriter where
  header : List (String × String)
  status : Option Nat
  body : String
deriving DecidableEq, Repr

/-- A writer nothing has been written to. -/
def ResponseWriter.new : ResponseWriter := ⟨[], none, ""⟩

/-- `WriteHeader`: only the first status line counts. -/
def ResponseWriter.WriteHeader (w : ResponseWriter) (code : Nat) : ResponseWriter :=
  match w.status with
  | some _ => w
  | none => ⟨w.header, some code, w.body⟩

/-- `Write`: the first write sends status 200 when no status line was written before. -/
def ResponseWriter.Write (w : ResponseWriter) (b : String) : ResponseWriter :=
  ⟨w.header, some (w.status.getD StatusOK), w.body ++ b⟩

/-- The status the client receives: 200 when the handler returned without writing one. -/
def ResponseWriter.Code (w : ResponseWriter) : Nat := w.status.getD StatusOK

/-- `Header().Set`. -/
def ResponseWriter.HeaderSet (w : ResponseWriter) (k v : String) : ResponseWriter :=
  ⟨(w.header.filter fun e => e.1 != k) ++ [(k, v)], w.status, w.body⟩

/-- `Header().Add`. -/
def ResponseWriter.HeaderAdd (w : ResponseWriter) (k v : String) : ResponseWriter :=
  ⟨w.header ++ [(k, v)], w.status, w.body⟩

/-- `http.Error`: plain-text headers, the status line, then the message and a newline
(`fmt.Fprintln`). -/
def Error (w : ResponseWriter) (error : String) (code : Nat) : ResponseWriter :=
  (((w.HeaderSet "Content-Type" "text/plain; charset=utf-8").HeaderSet
    "X-Content-Type-Options" "nosniff").WriteHeader code).Write (error ++ "\n")

end http

/-! ## `internal/middleware/adaptor` -/

namespace adaptor

/-- What the two decoding libraries do for an input type `T`: its zero value (`new(T)`), the
storing of a scanned JSON value into it (with the message of the first
`UnmarshalTypeError`, if any), and `mapstructure.Decode` of route variables. -/
structure Codec (T : Type) where
  zero : T
  unmarshal : json.Value → T → T × Option String
  mapDecode : List (String × String) → T → T × Option GoError

/-- `json.NewDecoder(r.Body).Decode(ptrIn)` on a fresh `ptrIn`: `io.EOF` when the body holds
no value at all, the scanner's error, or the outcome of storing the value. -/
def jsonDecode {T : Type} (c : Codec T) (body : String) : T × Option GoError :=
  match json.readValue body with
  | .eof => (c.zero, some .EOF)
  | .err msg => (c.zero, some (.New msg))
  | .value v => ((c.unmarshal v c.zero).1, (c.unmarshal v c.zero).2.map GoError.New)

/-- `GenericDecoder`: decode the body; on `io.EOF` decode the route variables instead. -/
def GenericDecoder {T : Type} (c : Codec T) (r : http.Request) : T × Option GoError :=
  if (jsonDecode c r.Body).2 = some GoError.EOF then
    c.mapDecode r.Vars (jsonDecode c r.Body).1
  else jsonDecode c r.Body

/-- `GenericEncoder`: `Encode` writes the JSON text and a newline, or nothing when the value
cannot be encoded; its error is dropped.  The header is added afterwards. -/
def GenericEncoder {T : Type} (marshal : T → Except GoError String) (w : http.ResponseWriter)
    (out : T) : http.ResponseWriter × Option GoError :=
  match marshal out with
  | .ok text => ((w.Write (text ++ "\n")).HeaderAdd "Content-Type" "application/json", none)
  | .error _ => (w.HeaderAdd "Content-Type" "application/json", none)

/-- What serving one request did: the response, the state the operation left, the input the
operation was invoked with (if it was), the output handed to the encoder (if any), and the
errors logged. -/
structure Served (TIN TOUT S : Type) where
  w : http.ResponseWriter
  state : S
  invoked : Option TIN
  encoded : Option TOUT
  logged : List GoError

/-- `GenericHttpAdaptor(f)`: the handler wrapping the operation `f`. -/
def GenericHttpAdaptor {TIN TOUT S : Type} (c : Codec TIN)
    (marshal : TOUT → Except GoError String) (f : TIN → S → (TOUT × Option GoError) × S)
    (w : http.ResponseWriter) (r : http.Request) (st : S) : Served TIN TOUT S :=
  match GenericDecoder c r with
  | (_, some err) =>
    ⟨http.Error w err.Error http.StatusInternalServerError, st, none, none, [err]⟩
  | (input, none) =>
    match f input st with
    | ((_, some err), st1) =>
      ⟨http.Error w err.Error http.StatusBadRequest, st1, some input, none, [err]⟩
    | ((out, none), st1) =>
      match GenericEncoder marshal w out with
      | (w1, some err) =>
        ⟨http.Error w1 err.Error http.StatusInternalServerError, st1, some input, some out,
          [err]⟩
      | (w1, none) => ⟨w1, st1, some input, some out, []⟩

/-- The codec of `models.Sensor`. -/
def sensorCodec : Codec models.Sensor :=
  ⟨models.Sensor.zero, json.storeSensor, mapstructure.decodeSensor⟩

/-- The codec of `models.Location`. -/
def locationCodec : Codec models.Location :=
  ⟨models.Location.zero, json.storeLocation "value" "struct field Location",
    mapstructure.decodeLocation⟩

/-- The codec of `map[string]string`; the zero value is the nil map. -/
def mapCodec : Codec (List (String × String)) :=
  ⟨[], json.storeMap, mapstructure.decodeMap⟩

end adaptor

/-! ## `NewHTTPServer`: the routes -/

namespace server

/-- The handlers `NewHTTPServer` registers. -/
inductive Handler where
  | CreateSensor
  | GetNearestSensor
  | GetSensorReadingsForTimeRange
  | Status
  | CreateSensorReading
  | Swagger
  | GetSensor
  | UpdateSensor
deriving DecidableEq, Repr

/-- A segment of a route template: literal text or a variable such as `{name}`. -/
inductive Segment where
  | lit (s : String)
  | var (name : String)
deriving DecidableEq, Repr

/-- A registered route: the path template (a `PathPrefix` route is open at the end), the
methods it is limited to (none listed: any), and its handler. -/
structure Route where
  template : List Segment
  openEnded : Bool
  methods : List String
  handler : Handler
deriving DecidableEq, Repr

/-- The routes in the order `NewHTTPServer` registers them. -/
def routes : List Route :=
  [ ⟨[.lit "sensors"], false, ["POST"], .CreateSensor⟩,
    ⟨[.lit "sensors", .lit "nearest"], false, ["GET"], .GetNearestSensor⟩,
    ⟨[.lit "sensor_readings"], false, ["GET"], .GetSensorReadingsForTimeRange⟩,
    ⟨[.lit "status"], false, ["GET"], .Status⟩,
    ⟨[.lit "sensor_readings"], false, ["POST"], .CreateSensorReading⟩,
    ⟨[.lit "swagger"], true, [], .Swagger⟩,
    ⟨[.lit "sensors", .var "name"], false, ["GET"], .GetSensor⟩,
    ⟨[.lit "sensors", .var "name"], false, ["PUT"], .UpdateSensor⟩ ]

/-- Match a path against a template, collecting the variables.  A variable matches one
non-empty segment (`[^/]+`). -/
def matchTemplate (openEnded : Bool) : List Segment → List String →
    Option (List (String × String))
  | [], [] => if openEnded then none else some []
  | [], _ :: _ => if openEnded then some [] else none
  | _ :: _, [] => none
  | .lit s :: ts, p :: ps => if p = s then matchTemplate openEnded ts ps else none
  | .var n :: ts, p :: ps =>
    if p = "" then none else (matchTemplate openEnded ts ps).map fun vs => (n, p) :: vs

/-- The outcome of routing a request. -/
inductive RouteMatch where
  | redirect
  | found (h : Handler) (vars : List (String × String))
  | methodNotAllowed
  | notFound
deriving DecidableEq, Repr

/-- Split a path at every `/`; `acc` holds the segment being read, last character first. -/
def splitSlash : List Char → List Char → List String
  | [], acc => [String.mk acc.reverse]
  | c :: cs, acc =>
    if c = '/' then String.mk acc.reverse :: splitSlash cs [] else splitSlash cs (c :: acc)

/-- The segments of a URL path, after its leading slash: `/sensors/s1` has the segments
`sensors` and `s1`, and `/sensors/` ends in an empty segment. -/
def segments (path : String) : List String :=
  match path.data with
  | [] => [""]
  | c :: cs => if c = '/' then splitSlash cs [] else splitSlash (c :: cs) []

/-- Whether a path is in the clean form the router insists on: no empty, `.` or `..`
segment, a trailing slash apart. -/
def cleanPath (path : List String) : Bool :=
  path.dropLast.all (fun s => s != "" && s != "." && s != "..") &&
    path.getLast?.all (fun s => s != "." && s != "..")

/-- Try the routes in order: the first whose template and method both match wins; a route
whose template matches under another method is remembered as a method mismatch. -/
def matchRoutes (method : String) (path : List String) (mismatch : Bool) :
    List Route → RouteMatch
  | [] => if mismatch then .methodNotAllowed else .notFound
  | r :: rs =>
    match matchTemplate r.openEnded r.template path with
    | none => matchRoutes method path mismatch rs
    | some vars =>
      if r.methods = [] ∨ method ∈ r.methods then .found r.handler vars
      else matchRoutes method path true rs

/-- `(*mux.Router).Match`, preceded by the redirect of a path that is not clean: one that
does not begin with a slash (the empty path too), or has a segment that is not clean. -/
def route (method path : String) : RouteMatch :=
  if path.data.head? = some '/' ∧ cleanPath (segments path) = true then
    matchRoutes method (segments path) false routes
  else .redirect

namespace SensorSphere

/-- The handler `adaptor.GenericHttpAdaptor(s.HandleCreateSensor)`. -/
def serveCreateSensor {σ : Type} (database : db.Database σ) :=
  adaptor.GenericHttpAdaptor adaptor.sensorCodec json.encodeSensorPtr
    (HandleCreateSensor database)

/-- The handler `adaptor.GenericHttpAdaptor(s.HandleGetSensor)`. -/
def serveGetSensor {σ : Type} (database : db.Database σ) :=
  adaptor.GenericHttpAdaptor adaptor.mapCodec json.encodeSensorPtr (HandleGetSensor database)

/-- The handler `adaptor.GenericHttpAdaptor(s.HandleUpdateSensor)`. -/
def serveUpdateSensor {σ : Type} (database : db.Database σ) :=
  adaptor.GenericHttpAdaptor adaptor.sensorCodec json.encodeInt (HandleUpdateSensor database)

/-- The handler `adaptor.GenericHttpAdaptor(s.HandleGetNearestSensor)`. -/
def serveGetNearestSensor {σ : Type} (database : db.Database σ) :=
  adaptor.GenericHttpAdaptor adaptor.locationCodec json.encodeSensorPtr
    (HandleGetNearestSensor database)

end SensorSphere

end server

/-! ## `internal/server/grpc.go`: authentication and the interceptor chains -/

namespace x509

/-- The part of an `x509.Certificate` that `authenticate` reads: `Subject.CommonName`. -/
structure Certificate where
  SubjectCommonName : String
deriving DecidableEq, Repr

end x509

namespace credentials

/-- A `credentials.AuthInfo`: a `credentials.TLSInfo`, of which `authenticate` reads
`State.VerifiedChains`, or a value of another implementation of the interface, of which the
name of its Go type is kept. -/
inductive AuthInfo where
  | TLSInfo (VerifiedChains : List (List x509.Certificate)) : AuthInfo
  | other (goType : String) : AuthInfo
deriving DecidableEq, Repr

end credentials

namespace peer2

/-- A `peer.Peer`; `AuthInfo` is nil when the transport has no security. -/
structure Peer where
  AuthInfo : Option credentials.AuthInfo
deriving DecidableEq, Repr

end peer2

/-- The values of a call's `context.Context` that the interceptors read or write: the peer
(`peer.FromContext`), the value under `subjectContextKey{}`, and whether the request tags
of `grpc_ctxtags` are attached. -/
structure Context where
  peer : Option peer2.Peer
  subject : Option String
  tags : Bool
deriving DecidableEq, Repr

namespace server

/-- `authenticate`.  The type assertion `peer.AuthInfo.(credentials.TLSInfo)` and the
indexing `VerifiedChains[0][0]` panic when they do not apply. -/
def authenticate (ctx : Context) : Outcome (Context × Option GoError) :=
  match ctx.peer with
  | none => .returned (ctx, some (.Status codes.Unknown "couldn't find peer info"))
  | some peer =>
    match peer.AuthInfo with
    | none => .returned (⟨ctx.peer, some "", ctx.tags⟩, none)
    | some (.other goType) =>
      .panic ("interface conversion: credentials.AuthInfo is " ++ goType
        ++ ", not credentials.TLSInfo")
    | some (.TLSInfo verifiedChains) =>
      match verifiedChains with
      | (leaf :: _) :: _ =>
        .returned (⟨ctx.peer, some leaf.SubjectCommonName, ctx.tags⟩, none)
      | _ => .panic "runtime error: index out of range [0] with length 0"

/-- `subject`: the string stored under `subjectContextKey{}`; the type assertion panics when
nothing is stored. -/
def subject (ctx : Context) : Outcome String :=
  match ctx.subject with
  | some s => .returned s
  | none => .panic "interface conversion: interface \x7b\x7d is nil, not string"

/-- The interceptors `NewGRPCServer` installs: request-context tagging (`grpc_ctxtags`),
access logging (`grpc_zap`), authentication (`grpcauth` with `authenticate`) and trace span
creation (`otelgrpc`). -/
inductive Interceptor where
  | grpc_ctxtags
  | grpc_zap
  | grpcauth
  | otelgrpc
deriving DecidableEq, Repr

namespace NewGRPCServer

/-- The arguments of `grpcmiddleware.ChainStreamServer`, in their order. -/
def streamInterceptors : List Interceptor :=
  [.grpc_ctxtags, .grpc_zap, .grpcauth, .otelgrpc]

/-- The arguments of `grpcmiddleware.ChainUnaryServer`, in their order. -/
def unaryInterceptors : List Interceptor :=
  [.grpc_zap, .grpcauth, .otelgrpc]

end NewGRPCServer

/-- What a call met on its way to the operation: the interceptors it entered, in order, and
either the context the operation was invoked with or the error that ended the call. -/
structure Passage where
  entered : List Interceptor
  reached : Outcome (Except GoError Context)
deriving DecidableEq, Repr

/-- A call through a chain of interceptors: each runs in turn and hands the call on.  The
tagging interceptor attaches the tags to the context; the authentication interceptor runs
`authenticate`, hands on the context it returns, and ends the call with its error if it
returns one. -/
def through : List Interceptor → Context → Passage
  | [], ctx => ⟨[], .returned (.ok ctx)⟩
  | .grpcauth :: rest, ctx =>
    match authenticate ctx with
    | .panic msg => ⟨[.grpcauth], .panic msg⟩
    | .returned (_, some err) => ⟨[.grpcauth], .returned (.error err)⟩
    | .returned (newCtx, none) =>
      ⟨.grpcauth :: (through rest newCtx).entered, (through rest newCtx).reached⟩
  | .grpc_ctxtags :: rest, ctx =>
    ⟨.grpc_ctxtags :: (through rest ⟨ctx.peer, ctx.subject, true⟩).entered,
      (through rest ⟨ctx.peer, ctx.subject, true⟩).reached⟩
  | .grpc_zap :: rest, ctx =>
    ⟨.grpc_zap :: (through rest ctx).entered, (through rest ctx).reached⟩
  | .otelgrpc :: rest, ctx =>
    ⟨.otelgrpc :: (through rest ctx).entered, (through rest ctx).reached⟩

end server

/-! ## `internal/agent/agent.go`: shutdown -/

namespace agent

/-- The actions `Shutdown` performs on the channel and on the collaborators. -/
inductive Step where
  | closeShutdowns
  | serverGrpcGracefulStop
  | serverHttpShutdown
  | traceProviderShutdown
  | dbClose
deriving DecidableEq, Repr

/-- What the collaborators answer when they are shut down: the error, if any, of
`serverHttp.Shutdown`, of `traceProvider.Shutdown` and of `db.Close`
(`serverGrpc.GracefulStop` returns nothing). -/
structure Collaborators where
  serverHttpShutdown : Option GoError
  traceProviderShutdown : Option GoError
  dbClose : Option GoError
deriving DecidableEq, Repr

/-- The shutdown state of an `Agent`: the flag `shutdown`, whether the channel `shutdowns`
is closed, and the steps performed so far, in order. -/
structure Agent where
  shutdown : Bool
  shutdownsClosed : Bool
  performed : List Step
deriving DecidableEq, Repr

/-- The shutdown state `New` leaves: flag unset, channel open, nothing performed. -/
def Agent.started : Agent := ⟨false, false, []⟩

/-- The loop `for _, fn := range shutdown`: the functions run in order, and the first error
ends the loop and is returned. -/
def runUntilError : List (Step × Option GoError) → List Step → Option GoError × List Step
  | [], performed => (none, performed)
  | (step, none) :: rest, performed => runUntilError rest (performed ++ [step])
  | (step, some err) :: _, performed => (some err, performed ++ [step])

/-- `(*Agent).Shutdown`, run under `shutdownLock`.  Closing a channel that is already
closed panics. -/
def Agent.Shutdown (a : Agent) (env : Collaborators) : Outcome (Option GoError) × Agent :=
  if a.shutdown = true then (.returned none, a)
  else if a.shutdownsClosed = true then
    (.panic "close of closed channel", ⟨true, true, a.performed⟩)
  else
    match runUntilError
        [(.serverGrpcGracefulStop, none), (.serverHttpShutdown, env.serverHttpShutdown),
          (.traceProviderShutdown, env.traceProviderShutdown)]
        (a.performed ++ [.closeShutdowns]) with
    | (some err, performed) => (.returned (some err), ⟨true, true, performed⟩)
    | (none, performed) =>
      match env.dbClose with
      | some err => (.returned (some err), ⟨true, true, performed ++ [.dbClose]⟩)
      | none => (.returned none, ⟨true, true, performed ++ [.dbClose]⟩)

/-- Successive invocations of `Shutdown` on one agent, each with the answers the
collaborators would give it: the results in order, and the final state. -/
def Agent.Shutdowns (a : Agent) : List Collaborators → List (Outcome (Option GoError)) × Agent
  | [] => ([], a)
  | env :: rest =>
    ((a.Shutdown env).1 :: ((a.Shutdown env).2.Shutdowns rest).1,
      ((a.Shutdown env).2.Shutdowns rest).2)

/-! ### Construction -/

/-- The calls `New` makes while it sets the agent up, and the two `go` statements that start
the listener tasks. -/
inductive Action where
  | NewLogger
  | ReplaceGlobals
  | RedirectStdLogAtDebug
  | RedirectStdLogAtWarn
  | dbNew
  | RunMigrations
  | authNew
  | NewTrace
  | NewGRPCServer
  | NewHTTPServer
  | goServeHttp
  | goServeGrpc
deriving DecidableEq, Repr

/-- What `New` meets: the `IsDevelopment` flag of its `Config`, and the error, if any, that
each of the constructors and initialisers it calls returns. -/
structure Environment where
  IsDevelopment : Bool
  NewLogger : Option GoError
  RedirectStdLogAtDebug : Option GoError
  RedirectStdLogAtWarn : Option GoError
  dbNew : Option GoError
  RunMigrations : Option GoError
  authNew : Option GoError
  NewTrace : Option GoError
  NewGRPCServer : Option GoError
  NewHTTPServer : Option GoError
deriving DecidableEq, Repr

/-- `(*Agent).setupLogger`: its error and the calls it made. -/
def setupLogger (env : Environment) : Option GoError × List Action :=
  match env.NewLogger with
  | some err => (some err, [.NewLogger])
  | none =>
    if env.IsDevelopment = true then
      match env.RedirectStdLogAtDebug with
      | some err => (some err, [.NewLogger, .ReplaceGlobals, .RedirectStdLogAtDebug])
      | none =>
        match env.RedirectStdLogAtWarn with
        | some err =>
          (some err,
            [.NewLogger, .ReplaceGlobals, .RedirectStdLogAtDebug, .RedirectStdLogAtWarn])
        | none =>
          (none, [.NewLogger, .ReplaceGlobals, .RedirectStdLogAtDebug, .RedirectStdLogAtWarn])
    else (none, [.NewLogger, .ReplaceGlobals])

/-- `(*Agent).setupDatabase`: open the storage handle, then run the migrations. -/
def setupDatabase (env : Environment) : Option GoError × List Action :=
  match env.dbNew with
  | some err => (some err, [.dbNew])
  | none =>
    match env.RunMigrations with
    | some err => (some err, [.dbNew, .RunMigrations])
    | none => (none, [.dbNew, .RunMigrations])

/-- `(*Agent).setupServers`: the authorizer, the tracer, the gRPC server, the HTTP server. -/
def setupServers (env : Environment) : Option GoError × List Action :=
  match env.authNew with
  | some err => (some err, [.authNew])
  | none =>
    match env.NewTrace with
    | some err => (some err, [.authNew, .NewTrace])
    | none =>
      match env.NewGRPCServer with
      | some err => (some err, [.authNew, .NewTrace, .NewGRPCServer])
      | none =>
        match env.NewHTTPServer with
        | some err => (some err, [.authNew, .NewTrace, .NewGRPCServer, .NewHTTPServer])
        | none => (none, [.authNew, .NewTrace, .NewGRPCServer, .NewHTTPServer])

/-- The loop `for _, fn := range setup`: the setup functions run in order, and the first
error ends the loop and is returned. -/
def runSetup (env : Environment) :
    List (Environment → Option GoError × List Action) → List Action →
      Option GoError × List Action
  | [], done => (none, done)
  | fn :: rest, done =>
    match (fn env).1 with
    | some err => (some err, done ++ (fn env).2)
    | none => runSetup env rest (done ++ (fn env).2)

/-- `agent.New`: the agent and the error it returns, and everything it did, in order.  The
two `go` statements come after the setup loop. -/
def New (env : Environment) : (Option Agent × Option GoError) × List Action :=
  match runSetup env [setupLogger, setupDatabase, setupServers] [] with
  | (some err, done) => ((none, some err), done)
  | (none, done) => ((some Agent.started, none), done ++ [.goServeHttp, .goServeGrpc])

end agent

/-! ## Lemmas on the generic adaptor -/

/-- `GenericEncoder` reports no error. -/
theorem adaptor.GenericEncoder_no_error {T : Type} (marshal : T → Except GoError String)
    (w : http.ResponseWriter) (out : T) : (adaptor.GenericEncoder marshal w out).2 = none := by
  unfold adaptor.GenericEncoder
  split <;> rfl

/-- Once the input is decoded, the state a request leaves is the state the operation
leaves. -/
theorem adaptor.state_of_decoded {TIN TOUT S : Type} (codec : adaptor.Codec TIN)
    (marshal : TOUT → Except GoError String) (f : TIN → S → (TOUT × Option GoError) × S)
    (w : http.ResponseWriter) (r : http.Request) (st : S) (input : TIN)
    (hdec : adaptor.GenericDecoder codec r = (input, none)) :
    (adaptor.GenericHttpAdaptor codec marshal f w r st).state = (f input st).2 := by
  unfold adaptor.GenericHttpAdaptor
  simp only [hdec]
  rcases hf : f input st with ⟨⟨out, _ | err⟩, st1⟩
  · have he := adaptor.GenericEncoder_no_error marshal w out
    rcases hg : adaptor.GenericEncoder marshal w out with ⟨w1, _ | e⟩
    · simp only [hg]
    · rw [hg] at he
      exact Option.noConfusion he
  · rfl

/-- When the input is decoded and the operation succeeds, the response is what
`GenericEncoder` wrote for the output of the operation. -/
theorem adaptor.served_of_success {TIN TOUT S : Type} (codec : adaptor.Codec TIN)
    (marshal : TOUT → Except GoError String) (f : TIN → S → (TOUT × Option GoError) × S)
    (w : http.ResponseWriter) (r : http.Request) (st st1 : S) (input : TIN) (out : TOUT)
    (hdec : adaptor.GenericDecoder codec r = (input, none))
    (hf : f input st = ((out, none), st1)) :
    adaptor.GenericHttpAdaptor codec marshal f w r st
      = ⟨(adaptor.GenericEncoder marshal w out).1, st1, some input, some out, []⟩ := by
  unfold adaptor.GenericHttpAdaptor
  simp only [hdec, hf]
  have he := adaptor.GenericEncoder_no_error marshal w out
  rcases hg : adaptor.GenericEncoder marshal w out with ⟨w1, _ | e⟩
  · rfl
  · rw [hg] at he
    exact Option.noConfusion he

/-- On a fresh writer `GenericEncoder` leaves status 200, and the body is the JSON text and
a newline when the output can be encoded. -/
theorem adaptor.GenericEncoder_fresh {T : Type} (marshal : T → Except GoError String)
    (out : T) :
    (adaptor.GenericEncoder marshal http.ResponseWriter.new out).1.Code = 200
    ∧ ∀ text : String, marshal out = .ok text →
      (adaptor.GenericEncoder marshal http.ResponseWriter.new out).1.body = text ++ "\n" := by
  unfold adaptor.GenericEncoder
  cases hm : marshal out with
  | error e => exact ⟨rfl, fun text ht => Except.noConfusion ht⟩
  | ok t =>
    refine ⟨rfl, fun text ht => ?_⟩
    cases ht
    simp [http.ResponseWriter.HeaderAdd, http.ResponseWriter.Write, http.ResponseWriter.new]

/-! ## Properties of the HTTP operations -/

section HttpOperations

open server server.SensorSphere

/-- C1. For every sensor whose name is empty, or whose latitude is 0, or whose longitude is
0, or whose tags are the nil slice, `HandleCreateSensor` and `HandleUpdateSensor` both return
the error "missing required fields", and the storage collaborator is left as it was: its
state is unchanged and no call is recorded. -/
theorem create_and_update_reject_missing_fields {σ : Type} (database : db.Database σ)
    (input : models.Sensor) (c : db.Conn σ)
    (h : input.Name = "" ∨ input.Location.Latitude.eqZero = true
      ∨ input.Location.Longitude.eqZero = true ∨ input.Tags = none) :
    HandleCreateSensor database input c
        = ((none, some (GoError.New "missing required fields")), c)
      ∧ HandleUpdateSensor database input c
        = ((0, some (GoError.New "missing required fields")), c) := by
  constructor
  · unfold HandleCreateSensor
    rw [if_pos h]
    rfl
  · unfold HandleUpdateSensor
    rw [if_pos h]
    rfl

/-- C1, at a sensor that has a name and tags and longitude 0, against the echoing
collaborator. -/
theorem create_and_update_reject_missing_fields_witness :
    (("s1" : String) = "" ∨ Float64.eqZero ⟨false, 1026, 1125899906842624⟩ = true
      ∨ Float64.eqZero Float64.zero = true ∨ some ["a"] = (none : Option (List String)))
    ∧ HandleCreateSensor db.echo
        ⟨"s1", ⟨Float64.zero, ⟨false, 1026, 1125899906842624⟩⟩, some ["a"]⟩ db.fresh
        = ((none, some (GoError.New "missing required fields")), db.fresh)
    ∧ HandleUpdateSensor db.echo
        ⟨"s1", ⟨Float64.zero, ⟨false, 1026, 1125899906842624⟩⟩, some ["a"]⟩ db.fresh
        = ((0, some (GoError.New "missing required fields")), db.fresh) :=
  ⟨Or.inr (Or.inr (Or.inl rfl)),
    create_and_update_reject_missing_fields db.echo
      ⟨"s1", ⟨Float64.zero, ⟨false, 1026, 1125899906842624⟩⟩, some ["a"]⟩ db.fresh
      (Or.inr (Or.inr (Or.inl rfl)))⟩

/-- C2. For every location whose latitude is 0 or whose longitude is 0,
`HandleGetNearestSensor` returns the validation error and leaves the storage collaborator
as it was: `GetNearestSensor` is not called. -/
theorem nearest_rejects_zero_coordinate {σ : Type} (database : db.Database σ)
    (input : models.Location) (c : db.Conn σ)
    (h : input.Latitude.eqZero = true ∨ input.Longitude.eqZero = true) :
    HandleGetNearestSensor database input c
      = ((none, some (GoError.New "missing required fields")), c) := by
  unfold HandleGetNearestSensor
  rw [if_pos h]
  rfl

/-- C2, at the location `{latitude: 0, longitude: 0}`, against the echoing collaborator. -/
theorem nearest_rejects_zero_coordinate_witness :
    (Float64.eqZero Float64.zero = true ∨ Float64.eqZero Float64.zero = true)
    ∧ HandleGetNearestSensor db.echo ⟨Float64.zero, Float64.zero⟩ db.fresh
      = ((none, some (GoError.New "missing required fields")), db.fresh) :=
  ⟨Or.inl rfl,
    nearest_rejects_zero_coordinate db.echo ⟨Float64.zero, Float64.zero⟩ db.fresh
      (Or.inl rfl)⟩

/-- C3. `HandleCreateSensorReading` calls the storage collaborator if and only if the
reading has a non-empty sensor name and a non-zero value.  An invalid reading gets the error
"missing required fields" and the collaborator is left as it was.  A valid reading is handed
to storage `CreateSensorReading` exactly once, and when storage returns a reading without
error the handler returns exactly that reading without error; the handler produced by
`GenericHttpAdaptor` then hands that reading to the encoder and answers status 200 with its
JSON text (and the newline `Encode` ends it with). -/
theorem create_reading_validates_then_returns_stored {σ : Type} (database : db.Database σ)
    (reading : models.SensorReading) (c : db.Conn σ) :
    ((reading.SensorName = "" ∨ reading.Value.eqZero = true) →
      HandleCreateSensorReading database reading c
        = ((none, some (GoError.New "missing required fields")), c))
    ∧ (¬ (reading.SensorName = "" ∨ reading.Value.eqZero = true) →
      (HandleCreateSensorReading database reading c).2.calls
          = c.calls ++ [db.Call.CreateSensorReading reading]
        ∧ (HandleCreateSensorReading database reading c).2.state
          = (database.CreateSensorReading reading c.state).2
        ∧ ∀ stored : Option models.SensorReading,
          (database.CreateSensorReading reading c.state).1 = (stored, none) →
          (HandleCreateSensorReading database reading c).1 = (stored, none)
          ∧ ∀ (codec : adaptor.Codec models.SensorReading)
              (marshal : Option models.SensorReading → Except GoError String)
              (r : http.Request),
            adaptor.GenericDecoder codec r = (reading, none) →
            (adaptor.GenericHttpAdaptor codec marshal (HandleCreateSensorReading database)
                http.ResponseWriter.new r c).w.Code = 200
            ∧ (adaptor.GenericHttpAdaptor codec marshal (HandleCreateSensorReading database)
                http.ResponseWriter.new r c).encoded = some stored
            ∧ ∀ text : String, marshal stored = .ok text →
              (adaptor.GenericHttpAdaptor codec marshal (HandleCreateSensorReading database)
                http.ResponseWriter.new r c).w.body = text ++ "\n")
    ∧ ((HandleCreateSensorReading database reading c).2.calls ≠ c.calls
      ↔ (reading.SensorName ≠ "" ∧ reading.Value.eqZero = false)) := by
  have hbad : (reading.SensorName = "" ∨ reading.Value.eqZero = true) →
      HandleCreateSensorReading database reading c
        = ((none, some (GoError.New "missing required fields")), c) := by
    intro h
    unfold HandleCreateSensorReading
    rw [if_pos h]
    rfl
  have hcalls : ¬ (reading.SensorName = "" ∨ reading.Value.eqZero = true) →
      (HandleCreateSensorReading database reading c).2
        = ⟨(database.CreateSensorReading reading c.state).2,
            c.calls ++ [db.Call.CreateSensorReading reading]⟩ := by
    intro h
    unfold HandleCreateSensorReading
    rw [if_neg h]
    simp only [db.Database.doCreateSensorReading]
    split <;> simp_all
  have hres : ¬ (reading.SensorName = "" ∨ reading.Value.eqZero = true) →
      ∀ stored : Option models.SensorReading,
        (database.CreateSensorReading reading c.state).1 = (stored, none) →
        (HandleCreateSensorReading database reading c).1 = (stored, none) := by
    intro h stored hs
    unfold HandleCreateSensorReading
    rw [if_neg h]
    simp only [db.Database.doCreateSensorReading, hs]
  refine ⟨hbad, fun h => ⟨by rw [hcalls h], by rw [hcalls h], fun stored hs => ⟨hres h stored hs, ?_⟩⟩, ?_⟩
  · intro codec marshal r hdec
    have hf : HandleCreateSensorReading database reading c
        = ((stored, none), (HandleCreateSensorReading database reading c).2) := by
      rw [← hres h stored hs]
    rw [adaptor.served_of_success codec marshal _ _ r c _ reading stored hdec hf]
    exact ⟨(adaptor.GenericEncoder_fresh marshal stored).1, rfl,
      (adaptor.GenericEncoder_fresh marshal stored).2⟩
  · constructor
    · intro hne
      by_contra hv
      have hb : reading.SensorName = "" ∨ reading.Value.eqZero = true := by
        by_contra hb
        apply hv
        constructor
        · exact fun h0 => hb (Or.inl h0)
        · cases hz : reading.Value.eqZero
          · rfl
          · exact absurd (Or.inr hz) hb
      rw [hbad hb] at hne
      exact hne rfl
    · intro hv hc
      have h : ¬ (reading.SensorName = "" ∨ reading.Value.eqZero = true) := by
        rintro (h0 | h0)
        · exact hv.1 h0
        · rw [hv.2] at h0
          exact Bool.noConfusion h0
      rw [hcalls h] at hc
      simp at hc

/-- C3, at the reading of `TestHandleCreateSensorReading` (sensor "Test Sensor", value 1)
against the echoing collaborator: storage is called once with it and returns it. -/
theorem create_reading_validates_then_returns_stored_witness :
    (server.SensorSphere.HandleCreateSensorReading db.echo
        ⟨"Test Sensor", Time.zero, ⟨false, 1023, 0⟩⟩ db.fresh).2.calls
      = [db.Call.CreateSensorReading ⟨"Test Sensor", Time.zero, ⟨false, 1023, 0⟩⟩]
    ∧ (server.SensorSphere.HandleCreateSensorReading db.echo
        ⟨"Test Sensor", Time.zero, ⟨false, 1023, 0⟩⟩ db.fresh).1
      = (some ⟨"Test Sensor", Time.zero, ⟨false, 1023, 0⟩⟩, none) :=
  ⟨((create_reading_validates_then_returns_stored db.echo
      ⟨"Test Sensor", Time.zero, ⟨false, 1023, 0⟩⟩ db.fresh).2.1 (by decide)).1,
    (((create_reading_validates_then_returns_stored db.echo
      ⟨"Test Sensor", Time.zero, ⟨false, 1023, 0⟩⟩ db.fresh).2.1 (by decide)).2.2
        (some ⟨"Test Sensor", Time.zero, ⟨false, 1023, 0⟩⟩) rfl).1⟩

/-- C4. For every time-range query, `HandleGetSensorReadingsForTimeRange` returns the
validation error and leaves the storage collaborator as it was when the sensor name is empty
or either bound is the zero time; otherwise it calls storage exactly once with the query
unchanged, and when storage returns its readings without error the handler returns that very
sequence (same length, same order, possibly empty) without error. -/
theorem time_range_validates_then_passes_query {σ : Type} (database : db.Database σ)
    (input : models.TimeRangeQuery) (c : db.Conn σ) :
    ((input.SensorName = "" ∨ input.EndTime.IsZero = true ∨ input.StartTime.IsZero = true) →
      HandleGetSensorReadingsForTimeRange database input c
        = ((none, some (GoError.New "missing required fields")), c))
    ∧ (¬ (input.SensorName = "" ∨ input.EndTime.IsZero = true
          ∨ input.StartTime.IsZero = true) →
      (HandleGetSensorReadingsForTimeRange database input c).2.calls
          = c.calls ++ [db.Call.GetSensorReadingsForTimeRange input]
        ∧ (HandleGetSensorReadingsForTimeRange database input c).2.state
          = (database.GetSensorReadingsForTimeRange input c.state).2
        ∧ ∀ readings : Option (List (Option models.SensorReading)),
          (database.GetSensorReadingsForTimeRange input c.state).1 = (readings, none) →
          (HandleGetSensorReadingsForTimeRange database input c).1 = (readings, none)) := by
  constructor
  · intro h
    unfold HandleGetSensorReadingsForTimeRange
    rw [if_pos h]
    rfl
  · intro h
    have hconn : (HandleGetSensorReadingsForTimeRange database input c).2
        = ⟨(database.GetSensorReadingsForTimeRange input c.state).2,
            c.calls ++ [db.Call.GetSensorReadingsForTimeRange input]⟩ := by
      unfold HandleGetSensorReadingsForTimeRange
      rw [if_neg h]
      simp only [db.Database.doGetSensorReadingsForTimeRange]
      split <;> simp_all
    refine ⟨by rw [hconn], by rw [hconn], ?_⟩
    intro readings hr
    unfold HandleGetSensorReadingsForTimeRange
    rw [if_neg h]
    simp only [db.Database.doGetSensorReadingsForTimeRange, hr]

/-- C4, at a query with an empty sensor name, against the echoing collaborator. -/
theorem time_range_validates_then_passes_query_witness :
    server.SensorSphere.HandleGetSensorReadingsForTimeRange db.echo
        ⟨⟨63000000000, 0, .UTC⟩, ⟨63000003600, 0, .UTC⟩, ""⟩ db.fresh
      = ((none, some (GoError.New "missing required fields")), db.fresh) :=
  (time_range_validates_then_passes_query db.echo
    ⟨⟨63000000000, 0, .UTC⟩, ⟨63000003600, 0, .UTC⟩, ""⟩ db.fresh).1 (Or.inl rfl)

/-- C6 (the code at the failing input). `HandleGetSensor` rejects an input without a `name`
entry, but an entry holding the empty name passes its check: storage `GetSensor` is called
with the empty string.  Such an input reaches the handler from `GET /sensors/x` with the body
`{"name":""}`. -/
theorem get_sensor_accepts_empty_name :
    (∀ (σ : Type) (database : db.Database σ) (c : db.Conn σ) (input : List (String × String)),
      input.lookup "name" = none →
      HandleGetSensor database input c
        = ((none, some (GoError.New "missing required fields")), c))
    ∧ (∀ (σ : Type) (database : db.Database σ) (c : db.Conn σ),
      (HandleGetSensor database [("name", "")] c).2.calls = c.calls ++ [db.Call.GetSensor ""])
    ∧ HandleGetSensor db.echo [("name", "")] db.fresh
      = ((some ⟨"", models.Location.zero, none⟩, none), ⟨(), [db.Call.GetSensor ""]⟩)
    ∧ server.route "GET" "/sensors/x" = .found .GetSensor [("name", "x")]
    ∧ (serveGetSensor db.echo http.ResponseWriter.new
        ⟨"GET", "/sensors/x", "\x7b\"name\":\"\"\x7d", [("name", "x")]⟩ db.fresh).state.calls
      = [db.Call.GetSensor ""] := by
  refine ⟨?_, ?_, rfl, by decide, by decide⟩
  · intro σ database c input h
    unfold HandleGetSensor
    rw [h]
    rfl
  · intro σ database c
    have hl : List.lookup "name" [(("name" : String), ("" : String))] = some "" := rfl
    have hconn : (HandleGetSensor database [("name", "")] c).2
        = ⟨(database.GetSensor "" c.state).2, c.calls ++ [db.Call.GetSensor ""]⟩ := by
      unfold HandleGetSensor
      rw [hl]
      simp only [db.Database.doGetSensor]
      split <;> simp_all
    rw [hconn]

end HttpOperations

/-! ## Properties of the gRPC methods -/

section GrpcMethods

open server server.grpcServer

/-- C5 (the code at the failing inputs). On the gRPC surface a request with missing fields is
not rejected, where the HTTP handlers of the same operations reject it: against the echoing
collaborator, `CreateSensor` with an empty name, zero coordinates and no tags,
`GetNearestSensor` at `(0, 0)` and `CreateSensorReading` with an empty sensor name and value 0
all return without error, and each has called the storage collaborator. -/
theorem grpc_requests_with_missing_fields_reach_storage :
    CreateSensor db.echo ⟨"", some ⟨Float64.zero, Float64.zero⟩, none⟩ db.fresh
      = (.returned (some ⟨"", some ⟨Float64.zero, Float64.zero⟩, none⟩, none),
          ⟨(), [db.Call.CreateSensor ⟨"", ⟨Float64.zero, Float64.zero⟩, none⟩]⟩)
    ∧ (GetNearestSensor db.echo ⟨Float64.zero, Float64.zero⟩ db.fresh).1.returnedError = none
    ∧ (GetNearestSensor db.echo ⟨Float64.zero, Float64.zero⟩ db.fresh).2.calls
      = [db.Call.GetNearestSensor ⟨Float64.zero, Float64.zero⟩]
    ∧ (CreateSensorReading db.echo ⟨"", Float64.zero, none⟩ db.fresh).1.returnedError = none
    ∧ (CreateSensorReading db.echo ⟨"", Float64.zero, none⟩ db.fresh).2.calls
      = [db.Call.CreateSensorReading ⟨"", Time.UnixUTC 0 0, Float64.zero⟩] := by
  refine ⟨rfl, rfl, rfl, rfl, rfl⟩

/-- The extent of the missing validation: no gRPC method tests a field of its request.  Each
converts the request and calls the storage collaborator exactly once with the converted
value, whatever the fields hold (for `CreateSensor` and `UpdateSensor`: whenever the
`Location` submessage is present), and the error it returns is the error storage returned,
none when storage returned none. -/
theorem grpc_methods_call_storage_without_validation {σ : Type} (database : db.Database σ)
    (c : db.Conn σ) :
    (∀ (name : String) (loc : grpc_api.Location) (tags : Option (List String)),
      (CreateSensor database ⟨name, some loc, tags⟩ c).2.calls
          = c.calls ++ [db.Call.CreateSensor ⟨name, ⟨loc.Longitude, loc.Latitude⟩, tags⟩]
        ∧ (CreateSensor database ⟨name, some loc, tags⟩ c).1.returnedError
          = (database.CreateSensor ⟨name, ⟨loc.Longitude, loc.Latitude⟩, tags⟩ c.state).1.2)
    ∧ (∀ req : grpc_api.GetSensorRequest,
      (GetSensor database req c).2.calls = c.calls ++ [db.Call.GetSensor req.Name]
        ∧ (GetSensor database req c).1.returnedError
          = (database.GetSensor req.Name c.state).1.2)
    ∧ (∀ (name : String) (loc : grpc_api.Location) (tags : Option (List String)),
      (UpdateSensor database ⟨name, some loc, tags⟩ c).2.calls
          = c.calls ++ [db.Call.UpdateSensor ⟨name, ⟨loc.Longitude, loc.Latitude⟩, tags⟩]
        ∧ (UpdateSensor database ⟨name, some loc, tags⟩ c).1.returnedError
          = (database.UpdateSensor ⟨name, ⟨loc.Longitude, loc.Latitude⟩, tags⟩ c.state).1.2)
    ∧ (∀ loc : grpc_api.Location,
      (GetNearestSensor database loc c).2.calls
          = c.calls ++ [db.Call.GetNearestSensor ⟨loc.Longitude, loc.Latitude⟩]
        ∧ (GetNearestSensor database loc c).1.returnedError
          = (database.GetNearestSensor ⟨loc.Longitude, loc.Latitude⟩ c.state).1.2)
    ∧ (∀ reading : grpc_api.SensorReading,
      (CreateSensorReading database reading c).2.calls
          = c.calls ++ [db.Call.CreateSensorReading (apiReadingToModel reading)]
        ∧ (CreateSensorReading database reading c).1.returnedError
          = (database.CreateSensorReading (apiReadingToModel reading) c.state).1.2)
    ∧ (∀ query : grpc_api.TimeRangeQuery,
      (GetSensorReadingsForTimeRange database query c).2.calls
          = c.calls ++ [db.Call.GetSensorReadingsForTimeRange (apiTimeRangeQueryToModel query)]
        ∧ (GetSensorReadingsForTimeRange database query c).1.returnedError
          = (database.GetSensorReadingsForTimeRange
              (apiTimeRangeQueryToModel query) c.state).1.2) := by
  refine ⟨?_, ?_, ?_, ?_, ?_, ?_⟩
  · intro name loc tags
    unfold CreateSensor
    simp only [apiSensorToModel, db.Database.doCreateSensor]
    rcases h : (database.CreateSensor ⟨name, ⟨loc.Longitude, loc.Latitude⟩, tags⟩ c.state).1
      with ⟨sensor, _ | err⟩
    · cases sensor <;> simp [Outcome.returnedError, Outcome.andThen, modelSensorToAPI]
    · simp [Outcome.returnedError]
  · intro req
    unfold GetSensor
    simp only [db.Database.doGetSensor]
    rcases h : (database.GetSensor req.Name c.state).1 with ⟨sensor, _ | err⟩
    · cases sensor <;> simp [Outcome.returnedError, Outcome.andThen, modelSensorToAPI]
    · simp [Outcome.returnedError]
  · intro name loc tags
    unfold UpdateSensor
    simp only [apiSensorToModel, db.Database.doUpdateSensor]
    rcases h : (database.UpdateSensor ⟨name, ⟨loc.Longitude, loc.Latitude⟩, tags⟩ c.state).1
      with ⟨rows, _ | err⟩
    · simp [Outcome.returnedError]
    · simp [Outcome.returnedError]
  · intro loc
    unfold GetNearestSensor
    simp only [apiLocationToModel, db.Database.doGetNearestSensor]
    rcases h : (database.GetNearestSensor ⟨loc.Longitude, loc.Latitude⟩ c.state).1
      with ⟨sensor, _ | err⟩
    · cases sensor <;> simp [Outcome.returnedError, Outcome.andThen, modelSensorToAPI]
    · simp [Outcome.returnedError]
  · intro reading
    unfold CreateSensorReading
    simp only [db.Database.doCreateSensorReading]
    rcases h : (database.CreateSensorReading (apiReadingToModel reading) c.state).1
      with ⟨stored, _ | err⟩
    · cases stored <;> simp [Outcome.returnedError, Outcome.andThen, modelReadingToAPI]
    · simp [Outcome.returnedError]
  · intro query
    unfold GetSensorReadingsForTimeRange
    simp only [db.Database.doGetSensorReadingsForTimeRange]
    rcases h : (database.GetSensorReadingsForTimeRange
        (apiTimeRangeQueryToModel query) c.state).1 with ⟨readings, _ | err⟩
    · cases hm : modelReadingsToAPI (readings.getD []) <;>
        simp [hm, Outcome.returnedError, Outcome.andThen]
    · simp [Outcome.returnedError]

end GrpcMethods

/-! ## Properties of the generic adaptor -/

section Adaptor

open adaptor

/-- C7 (counterexample). `POST /sensors` with the body `{"name":""}` decodes, the operation
returns the error "missing required fields", and the body of the response is not that
message: it is the message followed by a newline. -/
theorem error_body_is_not_the_bare_message :
    GenericDecoder sensorCodec ⟨"POST", "/sensors", "\x7b\"name\":\"\"\x7d", []⟩
      = (models.Sensor.zero, none)
    ∧ (server.SensorSphere.HandleCreateSensor db.echo models.Sensor.zero db.fresh).1.2
      = some (GoError.New "missing required fields")
    ∧ (server.SensorSphere.serveCreateSensor db.echo http.ResponseWriter.new
        ⟨"POST", "/sensors", "\x7b\"name\":\"\"\x7d", []⟩ db.fresh).w.body
      ≠ (GoError.New "missing required fields").Error
    ∧ (server.SensorSphere.serveCreateSensor db.echo http.ResponseWriter.new
        ⟨"POST", "/sensors", "\x7b\"name\":\"\"\x7d", []⟩ db.fresh).w.body
      = "missing required fields\n" := by
  decide

/-- C7 (as amended). For every operation wrapped by `GenericHttpAdaptor` and every request
whose input decodes successfully, if the operation returns an error then the response is the
one `http.Error` writes for the message of that error and status 400: the status is 400, the
body is the message followed by a newline, and no output is handed to the encoder. -/
theorem operation_error_is_status_400 {TIN TOUT S : Type} (codec : Codec TIN)
    (marshal : TOUT → Except GoError String) (f : TIN → S → (TOUT × Option GoError) × S)
    (r : http.Request) (st st1 : S) (input : TIN) (out : TOUT) (e : GoError)
    (hdec : GenericDecoder codec r = (input, none))
    (hf : f input st = ((out, some e), st1)) :
    (GenericHttpAdaptor codec marshal f http.ResponseWriter.new r st).w.Code = 400
    ∧ (GenericHttpAdaptor codec marshal f http.ResponseWriter.new r st).w.body
      = e.Error ++ "\n"
    ∧ (GenericHttpAdaptor codec marshal f http.ResponseWriter.new r st).w
      = http.Error http.ResponseWriter.new e.Error http.StatusBadRequest
    ∧ (GenericHttpAdaptor codec marshal f http.ResponseWriter.new r st).encoded = none
    ∧ (GenericHttpAdaptor codec marshal f http.ResponseWriter.new r st).invoked = some input
    ∧ (GenericHttpAdaptor codec marshal f http.ResponseWriter.new r st).state = st1 := by
  have key : GenericHttpAdaptor codec marshal f http.ResponseWriter.new r st
      = ⟨http.Error http.ResponseWriter.new e.Error http.StatusBadRequest, st1, some input,
          none, [e]⟩ := by
    unfold GenericHttpAdaptor
    simp only [hdec, hf]
  rw [key]
  refine ⟨rfl, ?_, rfl, rfl, rfl, rfl⟩
  simp [http.Error, http.ResponseWriter.Write, http.ResponseWriter.WriteHeader,
    http.ResponseWriter.HeaderSet, http.ResponseWriter.new]

/-- C7, at `POST /sensors` with the body `{"name":""}`: the body decodes, the operation fails
validation, and the response is 400 with the message of the validation error. -/
theorem operation_error_is_status_400_witness :
    (server.SensorSphere.serveCreateSensor db.echo http.ResponseWriter.new
        ⟨"POST", "/sensors", "\x7b\"name\":\"\"\x7d", []⟩ db.fresh).w.Code = 400
    ∧ (server.SensorSphere.serveCreateSensor db.echo http.ResponseWriter.new
        ⟨"POST", "/sensors", "\x7b\"name\":\"\"\x7d", []⟩ db.fresh).w.body
      = "missing required fields\n" :=
  ⟨(operation_error_is_status_400 sensorCodec json.encodeSensorPtr
      (server.SensorSphere.HandleCreateSensor db.echo)
      ⟨"POST", "/sensors", "\x7b\"name\":\"\"\x7d", []⟩ db.fresh db.fresh
      models.Sensor.zero none (GoError.New "missing required fields") (by decide) rfl).1,
    (operation_error_is_status_400 sensorCodec json.encodeSensorPtr
      (server.SensorSphere.HandleCreateSensor db.echo)
      ⟨"POST", "/sensors", "\x7b\"name\":\"\"\x7d", []⟩ db.fresh db.fresh
      models.Sensor.zero none (GoError.New "missing required fields") (by decide) rfl).2.1⟩

/-- C8. For every request whose input cannot be decoded — `GenericDecoder` returns an error,
be it from the JSON text of the body or, for a body without a value, from mapping the route
variables onto the input type — the handler produced by `GenericHttpAdaptor` responds with
status 500 carrying the message of the decode error and does not invoke the wrapped
operation: the state the operation would act on is unchanged. -/
theorem decode_error_is_status_500 {TIN TOUT S : Type} (codec : Codec TIN)
    (marshal : TOUT → Except GoError String) (f : TIN → S → (TOUT × Option GoError) × S)
    (r : http.Request) (st : S) (v : TIN) (err : GoError)
    (hdec : GenericDecoder codec r = (v, some err)) :
    (GenericHttpAdaptor codec marshal f http.ResponseWriter.new r st).w.Code = 500
    ∧ (GenericHttpAdaptor codec marshal f http.ResponseWriter.new r st).w.body
      = err.Error ++ "\n"
    ∧ (GenericHttpAdaptor codec marshal f http.ResponseWriter.new r st).invoked = none
    ∧ (GenericHttpAdaptor codec marshal f http.ResponseWriter.new r st).encoded = none
    ∧ (GenericHttpAdaptor codec marshal f http.ResponseWriter.new r st).state = st := by
  have key : GenericHttpAdaptor codec marshal f http.ResponseWriter.new r st
      = ⟨http.Error http.ResponseWriter.new err.Error http.StatusInternalServerError, st,
          none, none, [err]⟩ := by
    unfold GenericHttpAdaptor
    simp only [hdec]
  rw [key]
  refine ⟨rfl, ?_, rfl, rfl, rfl⟩
  simp [http.Error, http.ResponseWriter.Write, http.ResponseWriter.WriteHeader,
    http.ResponseWriter.HeaderSet, http.ResponseWriter.new]

/-- C8, at `POST /sensors` with the body `[1]`, which is JSON but not a sensor: status 500
with the message of the decoder, and storage is never reached. -/
theorem decode_error_is_status_500_witness :
    GenericDecoder sensorCodec ⟨"POST", "/sensors", "[1]", []⟩
      = (models.Sensor.zero,
          some (GoError.New
            "json: cannot unmarshal array into Go value of type models.Sensor"))
    ∧ (server.SensorSphere.serveCreateSensor db.echo http.ResponseWriter.new
        ⟨"POST", "/sensors", "[1]", []⟩ db.fresh).w.Code = 500
    ∧ (server.SensorSphere.serveCreateSensor db.echo http.ResponseWriter.new
        ⟨"POST", "/sensors", "[1]", []⟩ db.fresh).invoked = none :=
  ⟨by decide,
    (decode_error_is_status_500 sensorCodec json.encodeSensorPtr
      (server.SensorSphere.HandleCreateSensor db.echo) ⟨"POST", "/sensors", "[1]", []⟩
      db.fresh models.Sensor.zero
      (GoError.New "json: cannot unmarshal array into Go value of type models.Sensor")
      (by decide)).1,
    (decode_error_is_status_500 sensorCodec json.encodeSensorPtr
      (server.SensorSphere.HandleCreateSensor db.echo) ⟨"POST", "/sensors", "[1]", []⟩
      db.fresh models.Sensor.zero
      (GoError.New "json: cannot unmarshal array into Go value of type models.Sensor")
      (by decide)).2.2.1⟩

end Adaptor

/-! ## Properties of the routes -/

section Routes

open adaptor server server.SensorSphere

/-- A run of characters without a slash is one segment. -/
theorem server.splitSlash_of_no_slash (cs acc : List Char)
    (h : cs.all (fun ch => ch != '/') = true) :
    server.splitSlash cs acc = [String.mk (acc.reverse ++ cs)] := by
  induction cs generalizing acc with
  | nil => simp [server.splitSlash]
  | cons c cs ih =>
    simp only [List.all_cons, Bool.and_eq_true, bne_iff_ne, ne_eq] at h
    unfold server.splitSlash
    rw [if_neg h.1, ih (c :: acc) (by simpa using h.2)]
    simp

/-- A body holds no JSON value exactly when all of it is white space. -/
theorem json.skipSpace_eq_nil (cs : List Char) :
    json.skipSpace cs = [] ↔ cs.all json.isSpace = true := by
  induction cs with
  | nil => simp [json.skipSpace]
  | cons c cs ih =>
    unfold json.skipSpace
    by_cases hc : json.isSpace c = true
    · simp [hc, ih]
    · simp [hc]

/-- Reading a value from a body reports the end of input exactly when the body is blank. -/
theorem json.readValue_eq_eof (body : String) :
    json.readValue body = .eof ↔ body.data.all json.isSpace = true := by
  rw [← json.skipSpace_eq_nil]
  unfold json.readValue
  constructor
  · intro h
    split at h
    · assumption
    · split at h <;> exact (json.Read.noConfusion h)
  · intro h
    rw [h]

/-- `Decode` ends in `io.EOF` exactly when the body is blank. -/
theorem adaptor.jsonDecode_eof {T : Type} (codec : Codec T) (body : String) :
    (jsonDecode codec body).2 = some GoError.EOF ↔ body.data.all json.isSpace = true := by
  rw [← json.readValue_eq_eof]
  unfold jsonDecode
  constructor
  · intro h
    split at h
    · assumption
    · simp at h
    · rename_i v _
      cases hu : (codec.unmarshal v codec.zero).2 <;> simp [hu] at h
  · intro h
    rw [h]

/-- C9 (counterexample). `GET /sensors/nearest` with an empty body is not served by
`HandleGetSensor`: the route `/sensors/nearest`, registered first, takes it, and its handler
answers 400 without any call to the storage collaborator, so `GetSensor` is not called with
the name `nearest`. -/
theorem get_sensor_named_nearest_is_shadowed :
    server.route "GET" "/sensors/nearest" = .found .GetNearestSensor []
    ∧ (serveGetNearestSensor db.echo http.ResponseWriter.new
        ⟨"GET", "/sensors/nearest", "", []⟩ db.fresh).state.calls = []
    ∧ (serveGetNearestSensor db.echo http.ResponseWriter.new
        ⟨"GET", "/sensors/nearest", "", []⟩ db.fresh).w.Code = 400 := by
  decide

/-- C9 (as amended). `GenericDecoder` falls back to the route variables exactly when JSON
decoding reports the end of input, which is when the body is empty or all white space; for
any other body its result is that of the JSON decoding, whatever the route variables.
Consequently, for every sensor name `n` that is one non-empty path segment (no slash in it)
other than `.`, `..` and `nearest`, `GET /sensors/n` with such a body is routed to
`HandleGetSensor` with `name = n`, calls storage `GetSensor` exactly once, with exactly `n`,
and, when storage returns without error a sensor that JSON can encode, responds with status
200 and the JSON text of that sensor followed by a newline. -/
theorem get_sensor_by_path_parameter {σ : Type} (database : db.Database σ) (c : db.Conn σ)
    (n body : String) (hseg : n.data.all (fun ch => ch != '/') = true)
    (hn : n ≠ "" ∧ n ≠ "." ∧ n ≠ ".." ∧ n ≠ "nearest")
    (hbody : body.data.all json.isSpace = true) :
    (∀ (T : Type) (codec : Codec T) (r : http.Request),
      (r.Body.data.all json.isSpace = true →
        GenericDecoder codec r = codec.mapDecode r.Vars codec.zero)
      ∧ (r.Body.data.all json.isSpace = false →
        ∀ vars : List (String × String),
          GenericDecoder codec ⟨r.Method, r.Path, r.Body, vars⟩ = jsonDecode codec r.Body))
    ∧ server.route "GET" ("/sensors/" ++ n) = .found .GetSensor [("name", n)]
    ∧ (serveGetSensor database http.ResponseWriter.new
        ⟨"GET", "/sensors/" ++ n, body, [("name", n)]⟩ c).state.calls
      = c.calls ++ [db.Call.GetSensor n]
    ∧ ∀ (sensor : Option models.Sensor) (text : String),
      (database.GetSensor n c.state).1 = (sensor, none) →
      json.encodeSensorPtr sensor = .ok text →
      (serveGetSensor database http.ResponseWriter.new
          ⟨"GET", "/sensors/" ++ n, body, [("name", n)]⟩ c).w.Code = 200
      ∧ (serveGetSensor database http.ResponseWriter.new
          ⟨"GET", "/sensors/" ++ n, body, [("name", n)]⟩ c).w.body = text ++ "\n" := by
  have hfall : ∀ (T : Type) (codec : Codec T) (r : http.Request),
      (r.Body.data.all json.isSpace = true →
        GenericDecoder codec r = codec.mapDecode r.Vars codec.zero)
      ∧ (r.Body.data.all json.isSpace = false →
        ∀ vars : List (String × String),
          GenericDecoder codec ⟨r.Method, r.Path, r.Body, vars⟩ = jsonDecode codec r.Body) := by
    intro T codec r
    constructor
    · intro hb
      have heof := (adaptor.jsonDecode_eof codec r.Body).2 hb
      have hz : (jsonDecode codec r.Body).1 = codec.zero := by
        unfold jsonDecode
        rw [(json.readValue_eq_eof r.Body).2 hb]
      unfold GenericDecoder
      rw [if_pos heof, hz]
    · intro hb vars
      have hne : ¬ (jsonDecode codec r.Body).2 = some GoError.EOF := by
        intro h
        rw [(adaptor.jsonDecode_eof codec r.Body).1 h] at hb
        exact Bool.noConfusion hb
      unfold GenericDecoder
      simp only [if_neg hne]
  have hdec : GenericDecoder mapCodec ⟨"GET", "/sensors/" ++ n, body, [("name", n)]⟩
      = ([("name", n)], none) := by
    rw [(hfall _ mapCodec ⟨"GET", "/sensors/" ++ n, body, [("name", n)]⟩).1 hbody]
    simp [mapCodec, mapstructure.decodeMap, json.mapAssign]
  have hlook : List.lookup "name" [(("name" : String), n)] = some n := by
    simp [List.lookup]
  have hconn : (HandleGetSensor database [("name", n)] c).2
      = ⟨(database.GetSensor n c.state).2, c.calls ++ [db.Call.GetSensor n]⟩ := by
    unfold HandleGetSensor
    rw [hlook]
    simp only [db.Database.doGetSensor]
    split <;> simp_all
  refine ⟨hfall, ?_, ?_, ?_⟩
  · obtain ⟨h1, h2, h3, h4⟩ := hn
    have hsegs : server.segments ("/sensors/" ++ n) = ["sensors", n] := by
      have hd : ("/sensors/" ++ n).data
          = '/' :: 's' :: 'e' :: 'n' :: 's' :: 'o' :: 'r' :: 's' :: '/' :: n.data := rfl
      unfold server.segments
      rw [hd]
      simp [server.splitSlash, server.splitSlash_of_no_slash n.data [] hseg]
    unfold server.route
    rw [hsegs]
    simp [server.cleanPath, server.routes, server.matchRoutes, server.matchTemplate,
      h1, h2, h3, h4]
  · unfold serveGetSensor
    rw [adaptor.state_of_decoded _ _ _ _ _ _ _ hdec, hconn]
  · intro sensor text hs henc
    have hf : HandleGetSensor database [("name", n)] c
        = ((sensor, none), (HandleGetSensor database [("name", n)] c).2) := by
      have h1 : (HandleGetSensor database [("name", n)] c).1 = (sensor, none) := by
        unfold HandleGetSensor
        rw [hlook]
        simp only [db.Database.doGetSensor, hs]
      rw [← h1]
    unfold serveGetSensor
    rw [adaptor.served_of_success mapCodec json.encodeSensorPtr _ _ _ c _ _ sensor hdec hf]
    exact ⟨(adaptor.GenericEncoder_fresh json.encodeSensorPtr sensor).1,
      (adaptor.GenericEncoder_fresh json.encodeSensorPtr sensor).2 text henc⟩

/-- C9, at the sensor of `TestHandleGetSensor`: `GET /sensors/Test Sensor` with an empty
body against the echoing collaborator. -/
theorem get_sensor_by_path_parameter_witness :
    ("Test Sensor" : String).data.all (fun ch => ch != '/') = true
    ∧ (("Test Sensor" : String) ≠ "" ∧ ("Test Sensor" : String) ≠ "."
      ∧ ("Test Sensor" : String) ≠ ".." ∧ ("Test Sensor" : String) ≠ "nearest")
    ∧ ("" : String).data.all json.isSpace = true
    ∧ (serveGetSensor db.echo http.ResponseWriter.new
        ⟨"GET", "/sensors/Test Sensor", "", [("name", "Test Sensor")]⟩ db.fresh).state.calls
      = [db.Call.GetSensor "Test Sensor"]
    ∧ (serveGetSensor db.echo http.ResponseWriter.new
        ⟨"GET", "/sensors/Test Sensor", "", [("name", "Test Sensor")]⟩ db.fresh).w.body
      = "\x7b\"name\":\"Test Sensor\",\"location\":\x7b\"longitude\":0,\"latitude\":0\x7d,\"tags\":null\x7d\n" :=
  ⟨by decide, by decide, by decide,
    (get_sensor_by_path_parameter db.echo db.fresh "Test Sensor" "" (by decide) (by decide)
      (by decide)).2.2.1,
    ((get_sensor_by_path_parameter db.echo db.fresh "Test Sensor" "" (by decide) (by decide)
      (by decide)).2.2.2 (some ⟨"Test Sensor", models.Location.zero, none⟩)
      "\x7b\"name\":\"Test Sensor\",\"location\":\x7b\"longitude\":0,\"latitude\":0\x7d,\"tags\":null\x7d"
      rfl (by decide)).2⟩

/-- C10 (counterexample). `POST /sensors` with the body
`{"name":"s1","location":{"latitude":10,"longitude":20},"tags":["a"]}` against the echoing
collaborator does not answer with that same text. -/
theorem post_sensor_response_differs_from_request :
    (serveCreateSensor db.echo http.ResponseWriter.new
        ⟨"POST", "/sensors", "\x7b\"name\":\"s1\",\"location\":\x7b\"latitude\":10,\"longitude\":20\x7d,\"tags\":[\"a\"]\x7d", []⟩ db.fresh).w.body
      ≠ "\x7b\"name\":\"s1\",\"location\":\x7b\"latitude\":10,\"longitude\":20\x7d,\"tags\":[\"a\"]\x7d" := by
  decide

/-- C10 (as amended). `POST /sensors` with the body
`{"name":"s1","location":{"latitude":10,"longitude":20},"tags":["a"]}` against a storage
collaborator that echoes its input is routed to `HandleCreateSensor`, calls storage once
with the decoded sensor, and returns status 200 with the body
`{"name":"s1","location":{"longitude":20,"latitude":10},"tags":["a"]}` followed by a
newline: the keys of each object come in the order the struct fields are declared. -/
theorem post_sensor_is_encoded_in_field_order {σ : Type} (database : db.Database σ)
    (c : db.Conn σ)
    (hecho : ∀ (s : models.Sensor) (st : σ), (database.CreateSensor s st).1 = (some s, none)) :
    server.route "POST" "/sensors" = .found .CreateSensor []
    ∧ (serveCreateSensor database http.ResponseWriter.new
        ⟨"POST", "/sensors", "\x7b\"name\":\"s1\",\"location\":\x7b\"latitude\":10,\"longitude\":20\x7d,\"tags\":[\"a\"]\x7d", []⟩ c).w.Code = 200
    ∧ (serveCreateSensor database http.ResponseWriter.new
        ⟨"POST", "/sensors", "\x7b\"name\":\"s1\",\"location\":\x7b\"latitude\":10,\"longitude\":20\x7d,\"tags\":[\"a\"]\x7d", []⟩ c).w.body
      = "\x7b\"name\":\"s1\",\"location\":\x7b\"longitude\":20,\"latitude\":10\x7d,\"tags\":[\"a\"]\x7d\n"
    ∧ (serveCreateSensor database http.ResponseWriter.new
        ⟨"POST", "/sensors", "\x7b\"name\":\"s1\",\"location\":\x7b\"latitude\":10,\"longitude\":20\x7d,\"tags\":[\"a\"]\x7d", []⟩ c).state.calls
      = c.calls ++ [db.Call.CreateSensor ⟨"s1", ⟨⟨false, 1027, 1125899906842624⟩, ⟨false, 1026, 1125899906842624⟩⟩, some ["a"]⟩] := by
  have hdec : GenericDecoder sensorCodec ⟨"POST", "/sensors", "\x7b\"name\":\"s1\",\"location\":\x7b\"latitude\":10,\"longitude\":20\x7d,\"tags\":[\"a\"]\x7d", []⟩
      = (⟨"s1", ⟨⟨false, 1027, 1125899906842624⟩, ⟨false, 1026, 1125899906842624⟩⟩, some ["a"]⟩, none) := by
    decide
  have hf : HandleCreateSensor database ⟨"s1", ⟨⟨false, 1027, 1125899906842624⟩, ⟨false, 1026, 1125899906842624⟩⟩, some ["a"]⟩ c
      = ((some ⟨"s1", ⟨⟨false, 1027, 1125899906842624⟩, ⟨false, 1026, 1125899906842624⟩⟩, some ["a"]⟩, none),
          ⟨(database.CreateSensor ⟨"s1", ⟨⟨false, 1027, 1125899906842624⟩, ⟨false, 1026, 1125899906842624⟩⟩, some ["a"]⟩ c.state).2, c.calls ++ [db.Call.CreateSensor ⟨"s1", ⟨⟨false, 1027, 1125899906842624⟩, ⟨false, 1026, 1125899906842624⟩⟩, some ["a"]⟩]⟩) := by
    unfold HandleCreateSensor
    rw [if_neg (by decide)]
    simp only [db.Database.doCreateSensor, hecho]
  have henc : json.encodeSensorPtr (some ⟨"s1", ⟨⟨false, 1027, 1125899906842624⟩, ⟨false, 1026, 1125899906842624⟩⟩, some ["a"]⟩)
      = .ok "\x7b\"name\":\"s1\",\"location\":\x7b\"longitude\":20,\"latitude\":10\x7d,\"tags\":[\"a\"]\x7d" := by
    decide
  have key : serveCreateSensor database http.ResponseWriter.new
      ⟨"POST", "/sensors", "\x7b\"name\":\"s1\",\"location\":\x7b\"latitude\":10,\"longitude\":20\x7d,\"tags\":[\"a\"]\x7d", []⟩ c
      = ⟨(http.ResponseWriter.new.Write
            "\x7b\"name\":\"s1\",\"location\":\x7b\"longitude\":20,\"latitude\":10\x7d,\"tags\":[\"a\"]\x7d\n").HeaderAdd
            "Content-Type" "application/json",
          ⟨(database.CreateSensor
              ⟨"s1", ⟨⟨false, 1027, 1125899906842624⟩, ⟨false, 1026, 1125899906842624⟩⟩,
                some ["a"]⟩ c.state).2,
            c.calls ++ [db.Call.CreateSensor
              ⟨"s1", ⟨⟨false, 1027, 1125899906842624⟩, ⟨false, 1026, 1125899906842624⟩⟩,
                some ["a"]⟩]⟩,
          some ⟨"s1", ⟨⟨false, 1027, 1125899906842624⟩, ⟨false, 1026, 1125899906842624⟩⟩,
            some ["a"]⟩,
          some (some ⟨"s1", ⟨⟨false, 1027, 1125899906842624⟩,
            ⟨false, 1026, 1125899906842624⟩⟩, some ["a"]⟩), []⟩ := by
    unfold serveCreateSensor GenericHttpAdaptor
    simp only [hdec]
    rw [hf]
    simp only [GenericEncoder, henc]
    rfl
  rw [key]
  exact ⟨by decide, rfl, rfl, rfl⟩

/-- C10, against the echoing collaborator. -/
theorem post_sensor_is_encoded_in_field_order_witness :
    (∀ (s : models.Sensor) (st : Unit), (db.echo.CreateSensor s st).1 = (some s, none))
    ∧ (serveCreateSensor db.echo http.ResponseWriter.new
        ⟨"POST", "/sensors", "\x7b\"name\":\"s1\",\"location\":\x7b\"latitude\":10,\"longitude\":20\x7d,\"tags\":[\"a\"]\x7d", []⟩ db.fresh).w.body
      = "\x7b\"name\":\"s1\",\"location\":\x7b\"longitude\":20,\"latitude\":10\x7d,\"tags\":[\"a\"]\x7d\n" :=
  ⟨fun _ _ => rfl,
    (post_sensor_is_encoded_in_field_order db.echo db.fresh (fun _ _ => rfl)).2.2.1⟩

end Routes

/-! ## Creating a sensor over HTTP -/

section CreateSensor

open adaptor server server.SensorSphere

/-- C11 (counterexample). `POST /sensors` with the JSON of the sensor that carries only the
name "Test Sensor", against a collaborator whose `CreateSensor` returns that sensor, does
not reach storage and does not answer 200: the sensor fails validation, the status is 400
and the body is the message of the validation error. -/
theorem post_name_only_sensor_is_rejected :
    GenericDecoder sensorCodec ⟨"POST", "/sensors", "\x7b\"name\":\"Test Sensor\",\"location\":\x7b\"longitude\":0,\"latitude\":0\x7d,\"tags\":null\x7d", []⟩
      = (⟨"Test Sensor", models.Location.zero, none⟩, none)
    ∧ (serveCreateSensor (db.returning ⟨"Test Sensor", models.Location.zero, none⟩)
        http.ResponseWriter.new ⟨"POST", "/sensors", "\x7b\"name\":\"Test Sensor\",\"location\":\x7b\"longitude\":0,\"latitude\":0\x7d,\"tags\":null\x7d", []⟩ db.fresh).w.Code = 400
    ∧ (serveCreateSensor (db.returning ⟨"Test Sensor", models.Location.zero, none⟩)
        http.ResponseWriter.new ⟨"POST", "/sensors", "\x7b\"name\":\"Test Sensor\",\"location\":\x7b\"longitude\":0,\"latitude\":0\x7d,\"tags\":null\x7d", []⟩ db.fresh).w.body
      = "missing required fields\n"
    ∧ (serveCreateSensor (db.returning ⟨"Test Sensor", models.Location.zero, none⟩)
        http.ResponseWriter.new ⟨"POST", "/sensors", "\x7b\"name\":\"Test Sensor\",\"location\":\x7b\"longitude\":0,\"latitude\":0\x7d,\"tags\":null\x7d", []⟩ db.fresh).state.calls
      = [] := by
  decide

/-- The JSON text of a sensor that carries only a name. -/
theorem json.encodeSensorPtr_name_only (name : String) :
    json.encodeSensorPtr (some ⟨name, models.Location.zero, none⟩)
      = .ok ("\x7b\"name\":" ++ json.quote name
          ++ ",\"location\":\x7b\"longitude\":0,\"latitude\":0\x7d,\"tags\":null\x7d") := by
  have hloc : json.encodeLocation models.Location.zero
      = .ok "\x7b\"longitude\":0,\"latitude\":0\x7d" := by decide
  simp only [json.encodeSensorPtr, json.encodeSensor, hloc, json.encodeStrings]
  simp [String.append_assoc]

/-- C11 (as amended). A request to `POST /sensors` whose body decodes to a sensor that
carries only a name is rejected: status 400, the body "missing required fields" and a
newline, and no call to storage.  In general, for a sensor that passes validation,
`HandleCreateSensor` calls storage `CreateSensor` once and returns whatever sensor storage
returned without error; when that is a sensor carrying only a name, the response has status
200 and the body `{"name":<name>,"location":{"longitude":0,"latitude":0},"tags":null}`
followed by a newline. -/
theorem create_sensor_validates_then_returns_stored {σ : Type} (database : db.Database σ)
    (c : db.Conn σ) (name : String) :
    (∀ r : http.Request,
      GenericDecoder sensorCodec r = (⟨name, models.Location.zero, none⟩, none) →
      (serveCreateSensor database http.ResponseWriter.new r c).w.Code = 400
      ∧ (serveCreateSensor database http.ResponseWriter.new r c).w.body
        = "missing required fields\n"
      ∧ (serveCreateSensor database http.ResponseWriter.new r c).state = c)
    ∧ (∀ input : models.Sensor,
      ¬ (input.Name = "" ∨ input.Location.Latitude.eqZero = true
        ∨ input.Location.Longitude.eqZero = true ∨ input.Tags = none) →
      (HandleCreateSensor database input c).2.calls
          = c.calls ++ [db.Call.CreateSensor input]
      ∧ ∀ stored : Option models.Sensor,
        (database.CreateSensor input c.state).1 = (stored, none) →
        (HandleCreateSensor database input c).1 = (stored, none)
        ∧ ∀ r : http.Request, GenericDecoder sensorCodec r = (input, none) →
          stored = some ⟨name, models.Location.zero, none⟩ →
          (serveCreateSensor database http.ResponseWriter.new r c).w.Code = 200
          ∧ (serveCreateSensor database http.ResponseWriter.new r c).w.body
            = "\x7b\"name\":" ++ json.quote name
              ++ ",\"location\":\x7b\"longitude\":0,\"latitude\":0\x7d,\"tags\":null\x7d"
              ++ "\n") := by
  constructor
  · intro r hdec
    have hf : HandleCreateSensor database ⟨name, models.Location.zero, none⟩ c
        = ((none, some (GoError.New "missing required fields")), c) := by
      have hv : (⟨name, models.Location.zero, none⟩ : models.Sensor).Name = ""
          ∨ (⟨name, models.Location.zero, none⟩ : models.Sensor).Location.Latitude.eqZero
            = true
          ∨ (⟨name, models.Location.zero, none⟩ : models.Sensor).Location.Longitude.eqZero
            = true
          ∨ (⟨name, models.Location.zero, none⟩ : models.Sensor).Tags = none :=
        Or.inr (Or.inl rfl)
      unfold HandleCreateSensor
      rw [if_pos hv]
      rfl
    have key : serveCreateSensor database http.ResponseWriter.new r c
        = ⟨http.Error http.ResponseWriter.new "missing required fields"
            http.StatusBadRequest, c, some ⟨name, models.Location.zero, none⟩, none,
            [GoError.New "missing required fields"]⟩ := by
      unfold serveCreateSensor GenericHttpAdaptor
      simp only [hdec, hf]
      rfl
    rw [key]
    exact ⟨rfl, rfl, rfl⟩
  · intro input hvalid
    have hconn : (HandleCreateSensor database input c).2
        = ⟨(database.CreateSensor input c.state).2,
            c.calls ++ [db.Call.CreateSensor input]⟩ := by
      unfold HandleCreateSensor
      rw [if_neg hvalid]
      simp only [db.Database.doCreateSensor]
      split <;> simp_all
    refine ⟨by rw [hconn], fun stored hs => ?_⟩
    have hres : (HandleCreateSensor database input c).1 = (stored, none) := by
      unfold HandleCreateSensor
      rw [if_neg hvalid]
      simp only [db.Database.doCreateSensor, hs]
    refine ⟨hres, fun r hdec hstored => ?_⟩
    have hf : HandleCreateSensor database input c
        = ((stored, none), (HandleCreateSensor database input c).2) := by
      rw [← hres]
    unfold serveCreateSensor
    rw [adaptor.served_of_success sensorCodec json.encodeSensorPtr _ _ r c _ input stored
      hdec hf]
    subst hstored
    exact ⟨(adaptor.GenericEncoder_fresh json.encodeSensorPtr _).1,
      (adaptor.GenericEncoder_fresh json.encodeSensorPtr _).2 _
        (json.encodeSensorPtr_name_only name)⟩

/-- C11, at a valid request against a collaborator that returns the sensor carrying only the
name "Test Sensor": the response is that of `TestHandleCreateSensor`. -/
theorem create_sensor_validates_then_returns_stored_witness :
    (serveCreateSensor (db.returning ⟨"Test Sensor", models.Location.zero, none⟩)
        http.ResponseWriter.new ⟨"POST", "/sensors", "\x7b\"name\":\"s1\",\"location\":\x7b\"latitude\":10,\"longitude\":20\x7d,\"tags\":[\"a\"]\x7d", []⟩ db.fresh).w.body
      = "\x7b\"name\":\"Test Sensor\",\"location\":\x7b\"longitude\":0,\"latitude\":0\x7d,\"tags\":null\x7d" ++ "\n" :=
  ((((create_sensor_validates_then_returns_stored
      (db.returning ⟨"Test Sensor", models.Location.zero, none⟩) db.fresh
      "Test Sensor").2
      ⟨"s1", ⟨⟨false, 1027, 1125899906842624⟩, ⟨false, 1026, 1125899906842624⟩⟩, some ["a"]⟩
      (by decide)).2 (some ⟨"Test Sensor", models.Location.zero, none⟩) rfl).2
      ⟨"POST", "/sensors", "\x7b\"name\":\"s1\",\"location\":\x7b\"latitude\":10,\"longitude\":20\x7d,\"tags\":[\"a\"]\x7d", []⟩ (by decide) rfl).2

end CreateSensor

/-! ## Properties of the wire conversions -/

section WireConversions

open server

/-- Wrapping to `int64` leaves a number of the `int64` range as it is. -/
theorem wrapInt64_of_range (x : Int)
    (h : -9223372036854775808 ≤ x ∧ x < 9223372036854775808) : wrapInt64 x = x := by
  unfold wrapInt64
  omega

/-- Seconds taken to the Unix epoch and back, with `int64` arithmetic both ways. -/
theorem wrapInt64_unix_back (x : Int)
    (h : -9223372036854775808 ≤ x ∧ x < 9223372036854775808) :
    wrapInt64 (wrapInt64 (x - unixToInternal) + unixToInternal) = x := by
  unfold wrapInt64 unixToInternal
  omega

/-- A time taken to a wire timestamp and back is the same instant, presented in UTC. -/
theorem timestamppb.AsTime_New (t : Time)
    (h : -9223372036854775808 ≤ t.sec ∧ t.sec < 9223372036854775808) :
    timestamppb.Timestamp.AsTime (timestamppb.New t) = ⟨t.sec, t.nsec, .UTC⟩ := by
  have hn0 : ¬ ((t.nsec.val : Int) < 0 ∨ (t.nsec.val : Int) ≥ 1000000000) := by
    have := t.nsec.isLt
    omega
  have hn1 : ¬ ((t.nsec.val : Int) < 0) := by omega
  have hfin : (Fin.ofNat (t.nsec.val : Int).toNat : Fin 1000000000) = t.nsec := by
    apply Fin.ext
    simp [Fin.ofNat, Nat.mod_eq_of_lt t.nsec.isLt]
  simp only [timestamppb.New, timestamppb.Timestamp.AsTime, Time.UnixUTC, Time.Unix,
    Time.Nanosecond, if_neg hn0, if_neg hn1, hfin, wrapInt64_unix_back t.sec h]

/-- C12 (counterexample). A reading whose time is presented in a zone other than UTC does
not come back equal from the wire: the time that comes back is presented in UTC. -/
theorem reading_in_a_zone_comes_back_in_utc :
    (modelReadingToAPI
        (some ⟨"s1", ⟨63000000000, 0, .zone "CET" 3600⟩, ⟨false, 1023, 0⟩⟩)).andThen
        (fun wire => .returned (apiReadingToModel wire))
      ≠ .returned ⟨"s1", ⟨63000000000, 0, .zone "CET" 3600⟩, ⟨false, 1023, 0⟩⟩
    ∧ (modelReadingToAPI
        (some ⟨"s1", ⟨63000000000, 0, .zone "CET" 3600⟩, ⟨false, 1023, 0⟩⟩)).andThen
        (fun wire => .returned (apiReadingToModel wire))
      = .returned ⟨"s1", ⟨63000000000, 0, .UTC⟩, ⟨false, 1023, 0⟩⟩ := by
  decide

/-- C12 (as amended). For every domain sensor `s`, `apiSensorToModel(modelSensorToAPI(s))`
equals `s` field for field, and every location survives the trip through the wire
`Location` submessage unchanged.  For every domain reading `r`,
`apiReadingToModel(modelReadingToAPI(r))` has the sensor name and the value of `r`, and its
time is the instant of `r`'s time (same seconds, same nanoseconds) presented in UTC; it
equals `r` exactly when the time of `r` is presented in UTC. -/
theorem wire_round_trip :
    (∀ s : models.Sensor, (modelSensorToAPI (some s)).andThen apiSensorToModel = .returned s)
    ∧ (∀ l : models.Location, apiLocationToModel ⟨l.Longitude, l.Latitude⟩ = l)
    ∧ (∀ r : models.SensorReading,
      -9223372036854775808 ≤ r.Time.sec ∧ r.Time.sec < 9223372036854775808 →
      (modelReadingToAPI (some r)).andThen (fun wire => .returned (apiReadingToModel wire))
          = .returned ⟨r.SensorName, ⟨r.Time.sec, r.Time.nsec, .UTC⟩, r.Value⟩
        ∧ ((modelReadingToAPI (some r)).andThen
              (fun wire => .returned (apiReadingToModel wire)) = .returned r
            ↔ r.Time.loc = .UTC)) := by
  refine ⟨fun s => rfl, fun l => rfl, fun r hr => ?_⟩
  have key : (modelReadingToAPI (some r)).andThen
      (fun wire => .returned (apiReadingToModel wire))
      = .returned ⟨r.SensorName, ⟨r.Time.sec, r.Time.nsec, .UTC⟩, r.Value⟩ := by
    simp only [modelReadingToAPI, Outcome.andThen, apiReadingToModel,
      timestamppb.AsTime_New r.Time hr]
  refine ⟨key, ?_⟩
  rw [key]
  constructor
  · intro h
    have h1 := Outcome.returned.inj h
    have h2 := congrArg (fun x => x.Time.loc) h1
    exact h2.symm
  · intro h
    have : (⟨r.Time.sec, r.Time.nsec, .UTC⟩ : Time) = r.Time := by
      cases hT : r.Time with
      | mk sec nsec loc =>
        rw [hT] at h
        simp only at h
        rw [h]
    rw [this]

/-- C12, at a reading whose time is presented in UTC. -/
theorem wire_round_trip_witness :
    (modelReadingToAPI
        (some ⟨"s1", ⟨63000000000, 5, .UTC⟩, ⟨false, 1023, 0⟩⟩)).andThen
        (fun wire => .returned (apiReadingToModel wire))
      = .returned ⟨"s1", ⟨63000000000, 5, .UTC⟩, ⟨false, 1023, 0⟩⟩ :=
  ((wire_round_trip.2.2 ⟨"s1", ⟨63000000000, 5, .UTC⟩, ⟨false, 1023, 0⟩⟩
    (by decide)).2).2 rfl

/-- C13 (the code at the failing input). `apiSensorToModel` reads the coordinates through
the `Location` pointer of the wire sensor: on a wire sensor without `Location` submessage it
panics, and so does the gRPC method `CreateSensor`, before any call to storage.  The other
conversions return a value on every wire message: an absent timestamp is read as the Unix
epoch. -/
theorem api_sensor_without_location_panics :
    apiSensorToModel ⟨"s1", none, some ["a"]⟩
      = .panic "runtime error: invalid memory address or nil pointer dereference"
    ∧ grpcServer.CreateSensor db.echo ⟨"s1", none, some ["a"]⟩ db.fresh
      = (.panic "runtime error: invalid memory address or nil pointer dereference", db.fresh)
    ∧ (∀ (name : String) (l : grpc_api.Location) (tags : Option (List String)),
      apiSensorToModel ⟨name, some l, tags⟩
        = .returned ⟨name, ⟨l.Longitude, l.Latitude⟩, tags⟩)
    ∧ (∀ (name : String) (value : Float64),
      apiReadingToModel ⟨name, value, none⟩ = ⟨name, ⟨62135596800, 0, .UTC⟩, value⟩)
    ∧ (∀ name : String,
      apiTimeRangeQueryToModel ⟨name, none, none⟩
        = ⟨⟨62135596800, 0, .UTC⟩, ⟨62135596800, 0, .UTC⟩, name⟩) := by
  refine ⟨rfl, rfl, fun _ _ _ => rfl, fun _ _ => ?_, fun _ => ?_⟩
  · have h : timestamppb.Timestamp.AsTime none = ⟨62135596800, 0, .UTC⟩ := by decide
    simp only [apiReadingToModel, h]
  · have h : timestamppb.Timestamp.AsTime none = ⟨62135596800, 0, .UTC⟩ := by decide
    simp only [apiTimeRangeQueryToModel, h]

end WireConversions

/-! ## Properties of authentication and of the interceptor chains -/

section Authentication

open server

/-- C14. For every call context that carries no peer, `authenticate` returns the status
error with code `Unknown` ("couldn't find peer info") together with the context it was
given, so that no identity is attached; on the unary chain and on the streaming chain the
call ends at the authentication interceptor with that error and the operation is not
reached. -/
theorem authenticate_without_peer (ctx : Context) (h : ctx.peer = none) :
    authenticate ctx
      = .returned (ctx, some (GoError.Status codes.Unknown "couldn't find peer info"))
    ∧ (through NewGRPCServer.unaryInterceptors ctx).reached
      = .returned (.error (GoError.Status codes.Unknown "couldn't find peer info"))
    ∧ (through NewGRPCServer.streamInterceptors ctx).reached
      = .returned (.error (GoError.Status codes.Unknown "couldn't find peer info"))
    ∧ (through NewGRPCServer.unaryInterceptors ctx).entered.getLast? = some .grpcauth
    ∧ (through NewGRPCServer.streamInterceptors ctx).entered.getLast? = some .grpcauth := by
  have ha : ∀ c : Context, c.peer = none →
      authenticate c
        = .returned (c, some (GoError.Status codes.Unknown "couldn't find peer info")) := by
    intro c hc
    unfold authenticate
    rw [hc]
  refine ⟨ha ctx h, ?_, ?_, ?_, ?_⟩ <;>
    simp [NewGRPCServer.unaryInterceptors, NewGRPCServer.streamInterceptors, through,
      ha ctx h, ha ⟨ctx.peer, ctx.subject, true⟩ h]

/-- C14, at the empty context. -/
theorem authenticate_without_peer_witness :
    (⟨none, none, false⟩ : Context).peer = none
    ∧ authenticate ⟨none, none, false⟩
      = .returned (⟨none, none, false⟩,
          some (GoError.Status codes.Unknown "couldn't find peer info"))
    ∧ (GoError.Status codes.Unknown "couldn't find peer info").Error
      = "rpc error: code = Unknown desc = couldn't find peer info" :=
  ⟨rfl, (authenticate_without_peer ⟨none, none, false⟩ rfl).1, by decide⟩

/-- C15. For every call whose peer presents a verified client certificate chain,
`authenticate` returns without error, and the identity it attaches to the context, as
`subject` reads it back, is the common name of the leaf certificate: the first certificate
of the first verified chain.  The operation is reached with that context. -/
theorem authenticate_with_verified_chain (ctx : Context) (leaf : x509.Certificate)
    (chain : List x509.Certificate) (chains : List (List x509.Certificate))
    (h : ctx.peer = some ⟨some (.TLSInfo ((leaf :: chain) :: chains))⟩) :
    authenticate ctx
      = .returned (⟨ctx.peer, some leaf.SubjectCommonName, ctx.tags⟩, none)
    ∧ subject ⟨ctx.peer, some leaf.SubjectCommonName, ctx.tags⟩
      = .returned leaf.SubjectCommonName
    ∧ (through NewGRPCServer.unaryInterceptors ctx).reached
      = .returned (.ok ⟨ctx.peer, some leaf.SubjectCommonName, ctx.tags⟩)
    ∧ (through NewGRPCServer.streamInterceptors ctx).reached
      = .returned (.ok ⟨ctx.peer, some leaf.SubjectCommonName, true⟩) := by
  have ha : ∀ c : Context, c.peer = some ⟨some (.TLSInfo ((leaf :: chain) :: chains))⟩ →
      authenticate c = .returned (⟨c.peer, some leaf.SubjectCommonName, c.tags⟩, none) := by
    intro c hc
    unfold authenticate
    rw [hc]
  refine ⟨ha ctx h, rfl, ?_, ?_⟩ <;>
    simp [NewGRPCServer.unaryInterceptors, NewGRPCServer.streamInterceptors, through,
      ha ctx h, ha ⟨ctx.peer, ctx.subject, true⟩ h]

/-- C15, at a peer whose verified chain is a leaf named "client" under a root "ca". -/
theorem authenticate_with_verified_chain_witness :
    (authenticate ⟨some ⟨some (.TLSInfo [[⟨"client"⟩, ⟨"ca"⟩]])⟩, none, false⟩).andThen
      (fun r => subject r.1) = .returned "client" :=
  (authenticate_with_verified_chain ⟨some ⟨some (.TLSInfo [[⟨"client"⟩, ⟨"ca"⟩]])⟩, none, false⟩
    ⟨"client"⟩ [⟨"ca"⟩] [] rfl).1 ▸ rfl

/-- C16 (the code at the failing input). For a plaintext peer (no auth info) `authenticate`
returns without error and attaches the empty subject.  For a one-way-TLS peer (TLS auth info
without verified chains) it does not return: indexing `VerifiedChains[0]` panics, and the
call ends in that panic at the authentication interceptor. -/
theorem authenticate_one_way_tls_panics :
    (∀ ctx : Context, ctx.peer = some ⟨none⟩ →
      authenticate ctx = .returned (⟨ctx.peer, some "", ctx.tags⟩, none)
      ∧ subject ⟨ctx.peer, some "", ctx.tags⟩ = .returned "")
    ∧ authenticate ⟨some ⟨some (.TLSInfo [])⟩, none, false⟩
      = .panic "runtime error: index out of range [0] with length 0"
    ∧ through NewGRPCServer.unaryInterceptors ⟨some ⟨some (.TLSInfo [])⟩, none, false⟩
      = ⟨[.grpc_zap, .grpcauth],
          .panic "runtime error: index out of range [0] with length 0"⟩ := by
  refine ⟨fun ctx h => ⟨?_, rfl⟩, rfl, rfl⟩
  unfold authenticate
  rw [h]

/-- C17 (the code). The two chains `NewGRPCServer` builds are not the same list: the
streaming chain is tagging, logging, authentication, tracing; the unary chain is logging,
authentication, tracing, without the tagging step.  A unary call therefore reaches the
operation with no request tags in its context, where a streaming call has them. -/
theorem unary_chain_lacks_tagging :
    NewGRPCServer.streamInterceptors = [.grpc_ctxtags, .grpc_zap, .grpcauth, .otelgrpc]
    ∧ NewGRPCServer.unaryInterceptors = [.grpc_zap, .grpcauth, .otelgrpc]
    ∧ NewGRPCServer.unaryInterceptors ≠ NewGRPCServer.streamInterceptors
    ∧ Interceptor.grpc_ctxtags ∉ NewGRPCServer.unaryInterceptors
    ∧ through NewGRPCServer.streamInterceptors ⟨some ⟨none⟩, none, false⟩
      = ⟨[.grpc_ctxtags, .grpc_zap, .grpcauth, .otelgrpc],
          .returned (.ok ⟨some ⟨none⟩, some "", true⟩)⟩
    ∧ through NewGRPCServer.unaryInterceptors ⟨some ⟨none⟩, none, false⟩
      = ⟨[.grpc_zap, .grpcauth, .otelgrpc],
          .returned (.ok ⟨some ⟨none⟩, some "", false⟩)⟩ := by
  decide

end Authentication

/-! ## Properties of shutdown -/

section Shutdown

open agent

/-- Once the flag is set, `Shutdown` returns nil and changes nothing. -/
theorem agent.Shutdown_of_flag (a : Agent) (env : Collaborators) (h : a.shutdown = true) :
    a.Shutdown env = (.returned none, a) := by
  unfold Agent.Shutdown
  rw [if_pos h]

/-- Once the flag is set, every further invocation returns nil and changes nothing. -/
theorem agent.Shutdowns_of_flag (a : Agent) (envs : List Collaborators)
    (h : a.shutdown = true) :
    a.Shutdowns envs = (List.replicate envs.length (.returned none), a) := by
  induction envs with
  | nil => rfl
  | cons env rest ih =>
    unfold Agent.Shutdowns
    rw [agent.Shutdown_of_flag a env h, ih]
    rfl

/-- The first `Shutdown` of a started agent, by the answers of the collaborators. -/
theorem agent.Shutdown_started (env : Collaborators) :
    Agent.started.Shutdown env =
      match env.serverHttpShutdown, env.traceProviderShutdown, env.dbClose with
      | some e, _, _ =>
        (.returned (some e),
          ⟨true, true, [.closeShutdowns, .serverGrpcGracefulStop, .serverHttpShutdown]⟩)
      | none, some e, _ =>
        (.returned (some e),
          ⟨true, true, [.closeShutdowns, .serverGrpcGracefulStop, .serverHttpShutdown,
            .traceProviderShutdown]⟩)
      | none, none, some e =>
        (.returned (some e),
          ⟨true, true, [.closeShutdowns, .serverGrpcGracefulStop, .serverHttpShutdown,
            .traceProviderShutdown, .dbClose]⟩)
      | none, none, none =>
        (.returned none,
          ⟨true, true, [.closeShutdowns, .serverGrpcGracefulStop, .serverHttpShutdown,
            .traceProviderShutdown, .dbClose]⟩) := by
  rcases env with ⟨_ | e1, _ | e2, _ | e3⟩ <;> rfl

/-- C18. `Shutdown` is idempotent.  The first invocation on a started agent sets the flag
and closes the channel; from then on every invocation returns nil and performs nothing: it
leaves the flag, the channel and every collaborator as they are.  So in every sequence of
invocations the results after the first are all nil, the state is the one the first
invocation left, the channel is closed exactly once (never a second time, which would
panic), and each of gRPC stop, HTTP shutdown, tracer shutdown and storage close has run at
most once. -/
theorem shutdown_is_idempotent (env : Collaborators) (envs : List Collaborators) :
    (∀ (a : Agent) (later : Collaborators), a.shutdown = true →
      a.Shutdown later = (.returned none, a))
    ∧ (Agent.started.Shutdown env).2.shutdown = true
    ∧ (Agent.started.Shutdown env).2.shutdownsClosed = true
    ∧ (Agent.started.Shutdowns (env :: envs)).1
      = (Agent.started.Shutdown env).1 :: List.replicate envs.length (.returned none)
    ∧ (Agent.started.Shutdowns (env :: envs)).2 = (Agent.started.Shutdown env).2
    ∧ (Agent.started.Shutdowns (env :: envs)).2.performed.count .closeShutdowns = 1
    ∧ (∀ step : Step, (Agent.started.Shutdowns (env :: envs)).2.performed.count step ≤ 1)
    ∧ (∀ msg : String, Outcome.panic msg ∉ (Agent.started.Shutdowns (env :: envs)).1) := by
  have hflag : (Agent.started.Shutdown env).2.shutdown = true := by
    rw [agent.Shutdown_started]
    rcases env with ⟨_ | e1, _ | e2, _ | e3⟩ <;> rfl
  have hseq : Agent.started.Shutdowns (env :: envs)
      = ((Agent.started.Shutdown env).1 :: List.replicate envs.length (.returned none),
          (Agent.started.Shutdown env).2) := by
    unfold Agent.Shutdowns
    rw [agent.Shutdowns_of_flag _ envs hflag]
  refine ⟨agent.Shutdown_of_flag, hflag, ?_, by rw [hseq], by rw [hseq], ?_, ?_, ?_⟩
  · rw [agent.Shutdown_started]
    rcases env with ⟨_ | e1, _ | e2, _ | e3⟩ <;> rfl
  · rw [hseq, agent.Shutdown_started]
    rcases env with ⟨_ | e1, _ | e2, _ | e3⟩ <;> simp
  · intro step
    rw [hseq, agent.Shutdown_started]
    rcases env with ⟨_ | e1, _ | e2, _ | e3⟩ <;> cases step <;> simp
  · intro msg hmem
    rw [hseq, agent.Shutdown_started] at hmem
    rcases env with ⟨_ | e1, _ | e2, _ | e3⟩ <;>
      simp [List.mem_replicate] at hmem

/-- C19. The first `Shutdown` of a started agent runs gRPC graceful stop, HTTP server
shutdown, tracer provider shutdown and storage close in this order and stops at the first
step that returns an error: it returns that error and runs none of the later steps (a
tracer failure leaves the storage handle unclosed); it returns nil exactly when all steps
succeed. -/
theorem shutdown_stops_at_first_error (env : Collaborators) :
    (∀ e : GoError, env.serverHttpShutdown = some e →
      Agent.started.Shutdown env
        = (.returned (some e),
            ⟨true, true, [.closeShutdowns, .serverGrpcGracefulStop, .serverHttpShutdown]⟩))
    ∧ (∀ e : GoError, env.serverHttpShutdown = none → env.traceProviderShutdown = some e →
      Agent.started.Shutdown env
        = (.returned (some e),
            ⟨true, true, [.closeShutdowns, .serverGrpcGracefulStop, .serverHttpShutdown,
              .traceProviderShutdown]⟩))
    ∧ (∀ e : GoError, env.serverHttpShutdown = none → env.traceProviderShutdown = none →
      env.dbClose = some e →
      Agent.started.Shutdown env
        = (.returned (some e),
            ⟨true, true, [.closeShutdowns, .serverGrpcGracefulStop, .serverHttpShutdown,
              .traceProviderShutdown, .dbClose]⟩))
    ∧ (env.serverHttpShutdown = none → env.traceProviderShutdown = none →
      env.dbClose = none →
      Agent.started.Shutdown env
        = (.returned none,
            ⟨true, true, [.closeShutdowns, .serverGrpcGracefulStop, .serverHttpShutdown,
              .traceProviderShutdown, .dbClose]⟩))
    ∧ ((Agent.started.Shutdown env).1 = .returned none
      ↔ env.serverHttpShutdown = none ∧ env.traceProviderShutdown = none
        ∧ env.dbClose = none) := by
  rw [agent.Shutdown_started]
  rcases env with ⟨_ | e1, _ | e2, _ | e3⟩ <;> simp

/-- C19, at a tracer failure: the storage handle is left unclosed. -/
theorem shutdown_stops_at_first_error_witness :
    Agent.started.Shutdown ⟨none, some (.New "tracer"), some (.New "db")⟩
      = (.returned (some (.New "tracer")),
          ⟨true, true, [.closeShutdowns, .serverGrpcGracefulStop, .serverHttpShutdown,
            .traceProviderShutdown]⟩) :=
  (shutdown_stops_at_first_error ⟨none, some (.New "tracer"), some (.New "db")⟩).2.1
    (.New "tracer") rfl rfl

/-- C20 (counterexample). When the tracer shutdown fails, the invocation of `Shutdown` that
runs the teardown returns that error and the next invocation returns nil: the two do not
return the same outcome. -/
theorem second_shutdown_hides_the_error :
    Agent.started.Shutdowns [⟨none, some (.New "tracer"), none⟩,
        ⟨none, some (.New "tracer"), none⟩]
      = ([.returned (some (.New "tracer")), .returned none],
          ⟨true, true, [.closeShutdowns, .serverGrpcGracefulStop, .serverHttpShutdown,
            .traceProviderShutdown]⟩) := by
  decide

/-- C20 (as amended). When `Shutdown` is invoked twice on one agent, the teardown sequence
runs exactly once, in the first invocation, which returns its outcome; the second
invocation returns nil whatever that outcome was and performs nothing.  The two invocations
return the same outcome exactly when the teardown succeeded. -/
theorem second_shutdown_returns_nil (env1 env2 : Collaborators) :
    Agent.started.Shutdowns [env1, env2]
      = ([(Agent.started.Shutdown env1).1, .returned none], (Agent.started.Shutdown env1).2)
    ∧ (Agent.started.Shutdowns [env1, env2]).2.performed.count .serverGrpcGracefulStop = 1
    ∧ (∀ step : Step, (Agent.started.Shutdowns [env1, env2]).2.performed.count step ≤ 1)
    ∧ ((Agent.started.Shutdown env1).1 = .returned none
      ↔ env1.serverHttpShutdown = none ∧ env1.traceProviderShutdown = none
        ∧ env1.dbClose = none) := by
  have hflag : (Agent.started.Shutdown env1).2.shutdown = true := by
    rw [agent.Shutdown_started]
    rcases env1 with ⟨_ | e1, _ | e2, _ | e3⟩ <;> rfl
  have hseq : Agent.started.Shutdowns [env1, env2]
      = ([(Agent.started.Shutdown env1).1, .returned none],
          (Agent.started.Shutdown env1).2) := by
    unfold Agent.Shutdowns
    rw [agent.Shutdowns_of_flag _ [env2] hflag]
    rfl
  refine ⟨hseq, ?_, ?_, ?_⟩
  · rw [hseq, agent.Shutdown_started]
    rcases env1 with ⟨_ | e1, _ | e2, _ | e3⟩ <;> simp
  · intro step
    rw [hseq, agent.Shutdown_started]
    rcases env1 with ⟨_ | e1, _ | e2, _ | e3⟩ <;> cases step <;> simp
  · rw [agent.Shutdown_started]
    rcases env1 with ⟨_ | e1, _ | e2, _ | e3⟩ <;> simp

end Shutdown

/-! ## Properties of construction -/

section Construction

open agent

/-- `New` by the outcomes of its three setup steps. -/
theorem agent.New_by_steps (env : Environment) :
    New env =
      match (setupLogger env).1, (setupDatabase env).1, (setupServers env).1 with
      | some e, _, _ => ((none, some e), (setupLogger env).2)
      | none, some e, _ => ((none, some e), (setupLogger env).2 ++ (setupDatabase env).2)
      | none, none, some e =>
        ((none, some e),
          (setupLogger env).2 ++ (setupDatabase env).2 ++ (setupServers env).2)
      | none, none, none =>
        ((some Agent.started, none),
          (setupLogger env).2 ++ (setupDatabase env).2 ++ (setupServers env).2
            ++ [.goServeHttp, .goServeGrpc]) := by
  unfold New
  rcases hl : (setupLogger env).1 with _ | e1
  · rcases hd : (setupDatabase env).1 with _ | e2
    · rcases hs : (setupServers env).1 with _ | e3 <;> simp [runSetup, hl, hd, hs]
    · simp [runSetup, hl, hd]
  · simp [runSetup, hl]

/-- What `setupLogger` does is a run of the logger calls, from the first on. -/
theorem agent.setupLogger_actions (env : Environment) :
    (setupLogger env).2
      <+: [.NewLogger, .ReplaceGlobals, .RedirectStdLogAtDebug, .RedirectStdLogAtWarn] := by
  unfold setupLogger
  rcases env.NewLogger with _ | e1
  · cases env.IsDevelopment
    · exact ⟨[.RedirectStdLogAtDebug, .RedirectStdLogAtWarn], rfl⟩
    · rcases env.RedirectStdLogAtDebug with _ | e2
      · rcases env.RedirectStdLogAtWarn with _ | e3 <;> exact ⟨[], rfl⟩
      · exact ⟨[.RedirectStdLogAtWarn], rfl⟩
  · exact ⟨[.ReplaceGlobals, .RedirectStdLogAtDebug, .RedirectStdLogAtWarn], rfl⟩

/-- What `setupDatabase` does is a run of its two calls, from the first on, and both of them
when it succeeds. -/
theorem agent.setupDatabase_actions (env : Environment) :
    (setupDatabase env).2 <+: [.dbNew, .RunMigrations]
    ∧ ((setupDatabase env).1 = none → (setupDatabase env).2 = [.dbNew, .RunMigrations]) := by
  unfold setupDatabase
  rcases env.dbNew with _ | e1
  · rcases env.RunMigrations with _ | e2 <;> exact ⟨⟨[], rfl⟩, fun _ => rfl⟩
  · exact ⟨⟨[.RunMigrations], rfl⟩, fun h => Option.noConfusion h⟩

/-- What `setupServers` does is a run of its four calls, from the first on, and all of them
when it succeeds. -/
theorem agent.setupServers_actions (env : Environment) :
    (setupServers env).2 <+: [.authNew, .NewTrace, .NewGRPCServer, .NewHTTPServer]
    ∧ ((setupServers env).1 = none →
      (setupServers env).2 = [.authNew, .NewTrace, .NewGRPCServer, .NewHTTPServer]) := by
  unfold setupServers
  rcases env.authNew with _ | e1
  · rcases env.NewTrace with _ | e2
    · rcases env.NewGRPCServer with _ | e3
      · rcases env.NewHTTPServer with _ | e4 <;> exact ⟨⟨[], rfl⟩, fun _ => rfl⟩
      · exact ⟨⟨[.NewHTTPServer], rfl⟩, fun h => Option.noConfusion h⟩
    · exact ⟨⟨[.NewGRPCServer, .NewHTTPServer], rfl⟩, fun h => Option.noConfusion h⟩
  · exact ⟨⟨[.NewTrace, .NewGRPCServer, .NewHTTPServer], rfl⟩,
      fun h => Option.noConfusion h⟩

/-- No setup step starts a listener task. -/
theorem agent.setup_starts_no_listener (env : Environment) (a : Action)
    (ha : a = .goServeHttp ∨ a = .goServeGrpc) :
    a ∉ (setupLogger env).2 ∧ a ∉ (setupDatabase env).2 ∧ a ∉ (setupServers env).2 := by
  refine ⟨fun h => ?_, fun h => ?_, fun h => ?_⟩
  · have := (agent.setupLogger_actions env).subset h
    rcases ha with rfl | rfl <;> simp at this
  · have := (agent.setupDatabase_actions env).1.subset h
    rcases ha with rfl | rfl <;> simp at this
  · have := (agent.setupServers_actions env).1.subset h
    rcases ha with rfl | rfl <;> simp at this

/-- The logger step succeeds exactly when `NewLogger` does and, in development, both
redirections of the standard log do. -/
theorem agent.setupLogger_eq_none_iff (env : Environment) :
    (setupLogger env).1 = none ↔
      env.NewLogger = none
        ∧ (env.IsDevelopment = true →
          env.RedirectStdLogAtDebug = none ∧ env.RedirectStdLogAtWarn = none) := by
  unfold setupLogger
  rcases env.NewLogger with _ | e1
  · cases env.IsDevelopment
    · simp
    · rcases env.RedirectStdLogAtDebug with _ | e2
      · rcases env.RedirectStdLogAtWarn with _ | e3 <;> simp
      · simp
  · simp

/-- The database step succeeds exactly when `db.New` and `RunMigrations` do. -/
theorem agent.setupDatabase_eq_none_iff (env : Environment) :
    (setupDatabase env).1 = none ↔ env.dbNew = none ∧ env.RunMigrations = none := by
  unfold setupDatabase
  rcases env.dbNew with _ | e1
  · rcases env.RunMigrations with _ | e2 <;> simp
  · simp

/-- The servers step succeeds exactly when its four constructors do. -/
theorem agent.setupServers_eq_none_iff (env : Environment) :
    (setupServers env).1 = none ↔
      env.authNew = none ∧ env.NewTrace = none ∧ env.NewGRPCServer = none
        ∧ env.NewHTTPServer = none := by
  unfold setupServers
  rcases env.authNew with _ | e1
  · rcases env.NewTrace with _ | e2
    · rcases env.NewGRPCServer with _ | e3
      · rcases env.NewHTTPServer with _ | e4 <;> simp
      · simp
    · simp
  · simp

/-- C21. `agent.New` by what the calls it makes return.  The calls run in the order
`NewLogger`, `ReplaceGlobals`, in development the two redirections of the standard log, then
`db.New`, `RunMigrations`, `auth.New`, `NewTrace`, `NewGRPCServer`, `NewHTTPServer`.  Whichever
of the fallible calls is the first to return an error, `New` returns a nil agent with that
error, and what it has done ends with the failing call: no later call is made and no listener
task is started.  When every call succeeds `New` returns the agent and, after the last
constructor, starts the HTTP and then the gRPC listener task.  So `New` returns no error, and
each listener task is started, exactly when every call succeeds; the agent is nil exactly
when an error is returned. -/
theorem new_sets_up_in_order_and_aborts (env : Environment) :
    (∀ e : GoError, env.NewLogger = some e → New env = ((none, some e), [.NewLogger]))
    ∧ (∀ e : GoError, env.NewLogger = none → env.IsDevelopment = true →
      env.RedirectStdLogAtDebug = some e →
      New env = ((none, some e), [.NewLogger, .ReplaceGlobals, .RedirectStdLogAtDebug]))
    ∧ (∀ e : GoError, env.NewLogger = none → env.IsDevelopment = true →
      env.RedirectStdLogAtDebug = none → env.RedirectStdLogAtWarn = some e →
      New env
        = ((none, some e),
            [.NewLogger, .ReplaceGlobals, .RedirectStdLogAtDebug, .RedirectStdLogAtWarn]))
    ∧ (∀ logged : List Action, env.NewLogger = none →
      (env.IsDevelopment = false ∧ logged = [.NewLogger, .ReplaceGlobals]
        ∨ env.IsDevelopment = true ∧ env.RedirectStdLogAtDebug = none
          ∧ env.RedirectStdLogAtWarn = none
          ∧ logged
            = [.NewLogger, .ReplaceGlobals, .RedirectStdLogAtDebug, .RedirectStdLogAtWarn]) →
      (∀ e : GoError, env.dbNew = some e → New env = ((none, some e), logged ++ [.dbNew]))
      ∧ (∀ e : GoError, env.dbNew = none → env.RunMigrations = some e →
        New env = ((none, some e), logged ++ [.dbNew, .RunMigrations]))
      ∧ (∀ e : GoError, env.dbNew = none → env.RunMigrations = none →
        env.authNew = some e →
        New env = ((none, some e), logged ++ [.dbNew, .RunMigrations, .authNew]))
      ∧ (∀ e : GoError, env.dbNew = none → env.RunMigrations = none →
        env.authNew = none → env.NewTrace = some e →
        New env = ((none, some e), logged ++ [.dbNew, .RunMigrations, .authNew, .NewTrace]))
      ∧ (∀ e : GoError, env.dbNew = none → env.RunMigrations = none →
        env.authNew = none → env.NewTrace = none → env.NewGRPCServer = some e →
        New env
          = ((none, some e),
              logged ++ [.dbNew, .RunMigrations, .authNew, .NewTrace, .NewGRPCServer]))
      ∧ (∀ e : GoError, env.dbNew = none → env.RunMigrations = none →
        env.authNew = none → env.NewTrace = none → env.NewGRPCServer = none →
        env.NewHTTPServer = some e →
        New env
          = ((none, some e),
              logged
                ++ [.dbNew, .RunMigrations, .authNew, .NewTrace, .NewGRPCServer,
                    .NewHTTPServer]))
      ∧ (env.dbNew = none → env.RunMigrations = none → env.authNew = none →
        env.NewTrace = none → env.NewGRPCServer = none → env.NewHTTPServer = none →
        New env
          = ((some Agent.started, none),
              logged
                ++ [.dbNew, .RunMigrations, .authNew, .NewTrace, .NewGRPCServer,
                    .NewHTTPServer, .goServeHttp, .goServeGrpc])))
    ∧ ((New env).1.2 = none ↔
      env.NewLogger = none
        ∧ (env.IsDevelopment = true →
          env.RedirectStdLogAtDebug = none ∧ env.RedirectStdLogAtWarn = none)
        ∧ env.dbNew = none ∧ env.RunMigrations = none ∧ env.authNew = none
        ∧ env.NewTrace = none ∧ env.NewGRPCServer = none ∧ env.NewHTTPServer = none)
    ∧ ((New env).1.1 = none ↔ (New env).1.2 ≠ none)
    ∧ (Action.goServeHttp ∈ (New env).2 ↔ (New env).1.2 = none)
    ∧ (Action.goServeGrpc ∈ (New env).2 ↔ (New env).1.2 = none) := by
  have hno1 := agent.setup_starts_no_listener env .goServeHttp (Or.inl rfl)
  have hno2 := agent.setup_starts_no_listener env .goServeGrpc (Or.inr rfl)
  refine ⟨?_, ?_, ?_, ?_, ?_, ?_, ?_, ?_⟩
  · intro e h
    simp [New, runSetup, setupLogger, h]
  · intro e h1 h2 h3
    simp [New, runSetup, setupLogger, h1, h2, h3]
  · intro e h1 h2 h3 h4
    simp [New, runSetup, setupLogger, h1, h2, h3, h4]
  · intro logged h1 hlog
    have hl : setupLogger env = (none, logged) := by
      rcases hlog with ⟨h2, rfl⟩ | ⟨h2, h3, h4, rfl⟩
      · simp [setupLogger, h1, h2]
      · simp [setupLogger, h1, h2, h3, h4]
    refine ⟨?_, ?_, ?_, ?_, ?_, ?_, ?_⟩
    · intro e h5
      simp [New, runSetup, hl, setupDatabase, h5]
    · intro e h5 h6
      simp [New, runSetup, hl, setupDatabase, h5, h6]
    · intro e h5 h6 h7
      simp [New, runSetup, hl, setupDatabase, setupServers, h5, h6, h7]
    · intro e h5 h6 h7 h8
      simp [New, runSetup, hl, setupDatabase, setupServers, h5, h6, h7, h8]
    · intro e h5 h6 h7 h8 h9
      simp [New, runSetup, hl, setupDatabase, setupServers, h5, h6, h7, h8, h9]
    · intro e h5 h6 h7 h8 h9 h10
      simp [New, runSetup, hl, setupDatabase, setupServers, h5, h6, h7, h8, h9, h10]
    · intro h5 h6 h7 h8 h9 h10
      simp [New, runSetup, hl, setupDatabase, setupServers, h5, h6, h7, h8, h9, h10]
  · have hsteps : (New env).1.2 = none ↔
        (setupLogger env).1 = none ∧ (setupDatabase env).1 = none
          ∧ (setupServers env).1 = none := by
      rw [agent.New_by_steps]
      rcases (setupLogger env).1 with _ | e1 <;> rcases (setupDatabase env).1 with _ | e2 <;>
        rcases (setupServers env).1 with _ | e3 <;> simp
    rw [hsteps, agent.setupLogger_eq_none_iff, agent.setupDatabase_eq_none_iff,
      agent.setupServers_eq_none_iff]
    constructor
    · rintro ⟨⟨h1, h2⟩, ⟨h3, h4⟩, h5, h6, h7, h8⟩
      exact ⟨h1, h2, h3, h4, h5, h6, h7, h8⟩
    · rintro ⟨h1, h2, h3, h4, h5, h6, h7, h8⟩
      exact ⟨⟨h1, h2⟩, ⟨h3, h4⟩, h5, h6, h7, h8⟩
  · rw [agent.New_by_steps]
    rcases (setupLogger env).1 with _ | e1 <;> rcases (setupDatabase env).1 with _ | e2 <;>
      rcases (setupServers env).1 with _ | e3 <;> simp
  · rw [agent.New_by_steps]
    rcases (setupLogger env).1 with _ | e1 <;> rcases (setupDatabase env).1 with _ | e2 <;>
      rcases (setupServers env).1 with _ | e3 <;> simp [hno1.1, hno1.2.1, hno1.2.2]
  · rw [agent.New_by_steps]
    rcases (setupLogger env).1 with _ | e1 <;> rcases (setupDatabase env).1 with _ | e2 <;>
      rcases (setupServers env).1 with _ | e3 <;> simp [hno2.1, hno2.2.1, hno2.2.2]

/-- C21, at two environments.  In production, with an authorizer that cannot be built, `New`
returns nil with that error after the logger and the database are set up, and neither the
tracer, nor a server, nor a listener task is touched.  In development, with every call
succeeding, it returns the agent and has started both listener tasks last. -/
theorem new_sets_up_in_order_and_aborts_witness :
    New ⟨false, none, none, none, none, none, some (.New "acl"), none, none, none⟩
        = ((none, some (.New "acl")),
            [.NewLogger, .ReplaceGlobals, .dbNew, .RunMigrations, .authNew])
      ∧ New ⟨true, none, none, none, none, none, none, none, none, none⟩
        = ((some Agent.started, none),
            [.NewLogger, .ReplaceGlobals, .RedirectStdLogAtDebug, .RedirectStdLogAtWarn,
              .dbNew, .RunMigrations, .authNew, .NewTrace, .NewGRPCServer, .NewHTTPServer,
              .goServeHttp, .goServeGrpc]) :=
  ⟨((new_sets_up_in_order_and_aborts
      ⟨false, none, none, none, none, none, some (.New "acl"), none, none, none⟩).2.2.2.1
      [.NewLogger, .ReplaceGlobals] rfl (Or.inl ⟨rfl, rfl⟩)).2.2.1 (.New "acl") rfl rfl rfl,
    ((new_sets_up_in_order_and_aborts
      ⟨true, none, none, none, none, none, none, none, none, none⟩).2.2.2.1
      [.NewLogger, .ReplaceGlobals, .RedirectStdLogAtDebug, .RedirectStdLogAtWarn] rfl
      (Or.inr ⟨rfl, rfl, rfl, rfl⟩)).2.2.2.2.2.2 rfl rfl rfl rfl rfl rfl⟩

end Construction

/-! ## The encoder and the path parameter -/

section EncoderAndPath

open adaptor server server.SensorSphere

/-- C22. `GenericEncoder` returns nil for every output value: when the value has a JSON
encoding it writes that text and a newline, and when the encoding fails it writes nothing
and drops the encoder's error.  Therefore, whenever the input decodes and the wrapped
operation succeeds, the handler produced by `GenericHttpAdaptor` does not take its final
500-status branch: the response is what `GenericEncoder` left, nothing is logged, and on a
fresh writer the status is 200, also when the encoding failed. -/
theorem encoder_never_reports_failure {TIN TOUT S : Type} (codec : Codec TIN)
    (marshal : TOUT → Except GoError String) (f : TIN → S → (TOUT × Option GoError) × S)
    (w : http.ResponseWriter) (r : http.Request) (st st1 : S) (input : TIN) (out : TOUT)
    (hdec : GenericDecoder codec r = (input, none))
    (hf : f input st = ((out, none), st1)) :
    (GenericEncoder marshal w out).2 = none
    ∧ (∀ e : GoError, marshal out = .error e →
      GenericEncoder marshal w out
        = (w.HeaderAdd "Content-Type" "application/json", none))
    ∧ (GenericHttpAdaptor codec marshal f w r st).w = (GenericEncoder marshal w out).1
    ∧ (GenericHttpAdaptor codec marshal f w r st).logged = []
    ∧ (GenericHttpAdaptor codec marshal f http.ResponseWriter.new r st).w.Code = 200
    ∧ (∀ e : GoError, marshal out = .error e →
      (GenericHttpAdaptor codec marshal f http.ResponseWriter.new r st).w.body = "") := by
  refine ⟨adaptor.GenericEncoder_no_error marshal w out, ?_, ?_, ?_, ?_, ?_⟩
  · intro e he
    unfold GenericEncoder
    rw [he]
  · rw [adaptor.served_of_success codec marshal f w r st st1 input out hdec hf]
  · rw [adaptor.served_of_success codec marshal f w r st st1 input out hdec hf]
  · rw [adaptor.served_of_success codec marshal f _ r st st1 input out hdec hf]
    exact (adaptor.GenericEncoder_fresh marshal out).1
  · intro e he
    rw [adaptor.served_of_success codec marshal f _ r st st1 input out hdec hf]
    unfold GenericEncoder
    rw [he]
    rfl

/-- C22, at `POST /sensors` with a valid sensor against a collaborator that returns a sensor
whose longitude is not a number: JSON cannot encode it, and the response is an empty 200. -/
theorem encoder_never_reports_failure_witness :
    json.encodeSensorPtr (some ⟨"s1", ⟨⟨false, 2047, 1⟩, ⟨false, 1026, 1125899906842624⟩⟩, some ["a"]⟩)
      = .error (GoError.New "json: unsupported value: NaN")
    ∧ (serveCreateSensor (db.returning ⟨"s1", ⟨⟨false, 2047, 1⟩, ⟨false, 1026, 1125899906842624⟩⟩, some ["a"]⟩) http.ResponseWriter.new
        ⟨"POST", "/sensors", "\x7b\"name\":\"s1\",\"location\":\x7b\"latitude\":10,\"longitude\":20\x7d,\"tags\":[\"a\"]\x7d", []⟩ db.fresh).w.Code = 200
    ∧ (serveCreateSensor (db.returning ⟨"s1", ⟨⟨false, 2047, 1⟩, ⟨false, 1026, 1125899906842624⟩⟩, some ["a"]⟩) http.ResponseWriter.new
        ⟨"POST", "/sensors", "\x7b\"name\":\"s1\",\"location\":\x7b\"latitude\":10,\"longitude\":20\x7d,\"tags\":[\"a\"]\x7d", []⟩ db.fresh).w.body = "" :=
  ⟨by decide,
    (encoder_never_reports_failure sensorCodec json.encodeSensorPtr
      (HandleCreateSensor (db.returning ⟨"s1", ⟨⟨false, 2047, 1⟩, ⟨false, 1026, 1125899906842624⟩⟩, some ["a"]⟩)) http.ResponseWriter.new
      ⟨"POST", "/sensors", "\x7b\"name\":\"s1\",\"location\":\x7b\"latitude\":10,\"longitude\":20\x7d,\"tags\":[\"a\"]\x7d", []⟩ db.fresh ⟨(), [db.Call.CreateSensor ⟨"s1", ⟨⟨false, 1027, 1125899906842624⟩, ⟨false, 1026, 1125899906842624⟩⟩, some ["a"]⟩]⟩
      ⟨"s1", ⟨⟨false, 1027, 1125899906842624⟩, ⟨false, 1026, 1125899906842624⟩⟩, some ["a"]⟩ (some ⟨"s1", ⟨⟨false, 2047, 1⟩, ⟨false, 1026, 1125899906842624⟩⟩, some ["a"]⟩) (by decide) rfl).2.2.2.2.1,
    (encoder_never_reports_failure sensorCodec json.encodeSensorPtr
      (HandleCreateSensor (db.returning ⟨"s1", ⟨⟨false, 2047, 1⟩, ⟨false, 1026, 1125899906842624⟩⟩, some ["a"]⟩)) http.ResponseWriter.new
      ⟨"POST", "/sensors", "\x7b\"name\":\"s1\",\"location\":\x7b\"latitude\":10,\"longitude\":20\x7d,\"tags\":[\"a\"]\x7d", []⟩ db.fresh ⟨(), [db.Call.CreateSensor ⟨"s1", ⟨⟨false, 1027, 1125899906842624⟩, ⟨false, 1026, 1125899906842624⟩⟩, some ["a"]⟩]⟩
      ⟨"s1", ⟨⟨false, 1027, 1125899906842624⟩, ⟨false, 1026, 1125899906842624⟩⟩, some ["a"]⟩ (some ⟨"s1", ⟨⟨false, 2047, 1⟩, ⟨false, 1026, 1125899906842624⟩⟩, some ["a"]⟩) (by decide) rfl).2.2.2.2.2
      (GoError.New "json: unsupported value: NaN") (by decide)⟩

/-- For a body that is not blank, `GenericDecoder` gives what the JSON decoding of the body
gives, whatever the rest of the request. -/
theorem adaptor.GenericDecoder_of_body {T : Type} (codec : Codec T) (r : http.Request)
    (h : r.Body.data.all json.isSpace = false) :
    GenericDecoder codec r = jsonDecode codec r.Body := by
  have hne : ¬ (jsonDecode codec r.Body).2 = some GoError.EOF := by
    intro he
    rw [(adaptor.jsonDecode_eof codec r.Body).1 he] at h
    exact Bool.noConfusion h
  unfold GenericDecoder
  rw [if_neg hne]

/-- The handler produced by `GenericHttpAdaptor` depends on the request only through what
`GenericDecoder` makes of it. -/
theorem adaptor.GenericHttpAdaptor_congr {TIN TOUT S : Type} (codec : Codec TIN)
    (marshal : TOUT → Except GoError String) (f : TIN → S → (TOUT × Option GoError) × S)
    (w : http.ResponseWriter) (r1 r2 : http.Request) (st : S)
    (h : GenericDecoder codec r1 = GenericDecoder codec r2) :
    GenericHttpAdaptor codec marshal f w r1 st = GenericHttpAdaptor codec marshal f w r2 st := by
  unfold GenericHttpAdaptor
  rw [h]

/-- C23. For `PUT /sensors/{name}` with a JSON body (a body that is not blank), the path
parameter has no influence: two requests with the same body and different path names are
both routed to `HandleUpdateSensor` and are served identically — same response, same call
to storage, same input to the operation.  The input is the decoded body, and when it passes
validation storage `UpdateSensor` is called once with exactly that sensor, whose name is the
name field of the body. -/
theorem update_sensor_ignores_path_name {σ : Type} (database : db.Database σ)
    (c : db.Conn σ) (w : http.ResponseWriter) (body n1 n2 : String)
    (hbody : body.data.all json.isSpace = false) :
    serveUpdateSensor database w ⟨"PUT", "/sensors/" ++ n1, body, [("name", n1)]⟩ c
      = serveUpdateSensor database w ⟨"PUT", "/sensors/" ++ n2, body, [("name", n2)]⟩ c
    ∧ GenericDecoder sensorCodec ⟨"PUT", "/sensors/" ++ n1, body, [("name", n1)]⟩
      = jsonDecode sensorCodec body
    ∧ (∀ input : models.Sensor, jsonDecode sensorCodec body = (input, none) →
      (serveUpdateSensor database w
          ⟨"PUT", "/sensors/" ++ n1, body, [("name", n1)]⟩ c).invoked = some input
      ∧ (¬ (input.Name = "" ∨ input.Location.Latitude.eqZero = true
            ∨ input.Location.Longitude.eqZero = true ∨ input.Tags = none) →
        (serveUpdateSensor database w
            ⟨"PUT", "/sensors/" ++ n1, body, [("name", n1)]⟩ c).state.calls
          = c.calls ++ [db.Call.UpdateSensor input]))
    ∧ (∀ n : String, n.data.all (fun ch => ch != '/') = true →
      n ≠ "" → n ≠ "." → n ≠ ".." →
      server.route "PUT" ("/sensors/" ++ n) = .found .UpdateSensor [("name", n)]) := by
  have hd : ∀ n : String,
      GenericDecoder sensorCodec ⟨"PUT", "/sensors/" ++ n, body, [("name", n)]⟩
        = jsonDecode sensorCodec body :=
    fun n => adaptor.GenericDecoder_of_body sensorCodec
      ⟨"PUT", "/sensors/" ++ n, body, [("name", n)]⟩ hbody
  refine ⟨?_, hd n1, ?_, ?_⟩
  · unfold serveUpdateSensor
    exact adaptor.GenericHttpAdaptor_congr _ _ _ _ _ _ _ ((hd n1).trans (hd n2).symm)
  · intro input hin
    have hdec : GenericDecoder sensorCodec ⟨"PUT", "/sensors/" ++ n1, body, [("name", n1)]⟩
        = (input, none) := (hd n1).trans hin
    constructor
    · unfold serveUpdateSensor GenericHttpAdaptor
      simp only [hdec]
      rcases hf : HandleUpdateSensor database input c with ⟨⟨rows, _ | err⟩, c1⟩
      · have he := adaptor.GenericEncoder_no_error json.encodeInt w rows
        rcases hg : GenericEncoder json.encodeInt w rows with ⟨w1, _ | e⟩
        · simp only [hg]
        · rw [hg] at he
          exact Option.noConfusion he
      · rfl
    · intro hvalid
      have hconn : (HandleUpdateSensor database input c).2
          = ⟨(database.UpdateSensor input c.state).2,
              c.calls ++ [db.Call.UpdateSensor input]⟩ := by
        unfold HandleUpdateSensor
        rw [if_neg hvalid]
        simp only [db.Database.doUpdateSensor]
        split <;> simp_all
      unfold serveUpdateSensor
      rw [adaptor.state_of_decoded _ _ _ _ _ _ _ hdec, hconn]
  · intro n hseg h1 h2 h3
    have hsegs : server.segments ("/sensors/" ++ n) = ["sensors", n] := by
      have hdata : ("/sensors/" ++ n).data
          = '/' :: 's' :: 'e' :: 'n' :: 's' :: 'o' :: 'r' :: 's' :: '/' :: n.data := rfl
      unfold server.segments
      rw [hdata]
      simp [server.splitSlash, server.splitSlash_of_no_slash n.data [] hseg]
    unfold server.route
    rw [hsegs]
    by_cases hnear : n = "nearest"
    · subst hnear
      decide
    · simp [server.cleanPath, server.routes, server.matchRoutes, server.matchTemplate,
        h1, h2, h3, hnear]

/-- C23, at `PUT /sensors/other` and `PUT /sensors/nearest` with the body of a sensor named
`s1`: storage is called with the sensor `s1` either way, and the responses are the same. -/
theorem update_sensor_ignores_path_name_witness :
    "\x7b\"name\":\"s1\",\"location\":\x7b\"latitude\":10,\"longitude\":20\x7d,\"tags\":[\"a\"]\x7d".data.all json.isSpace = false
    ∧ serveUpdateSensor db.echo http.ResponseWriter.new
        ⟨"PUT", "/sensors/" ++ "other", "\x7b\"name\":\"s1\",\"location\":\x7b\"latitude\":10,\"longitude\":20\x7d,\"tags\":[\"a\"]\x7d", [("name", "other")]⟩ db.fresh
      = serveUpdateSensor db.echo http.ResponseWriter.new
        ⟨"PUT", "/sensors/" ++ "nearest", "\x7b\"name\":\"s1\",\"location\":\x7b\"latitude\":10,\"longitude\":20\x7d,\"tags\":[\"a\"]\x7d", [("name", "nearest")]⟩ db.fresh
    ∧ (serveUpdateSensor db.echo http.ResponseWriter.new
        ⟨"PUT", "/sensors/" ++ "other", "\x7b\"name\":\"s1\",\"location\":\x7b\"latitude\":10,\"longitude\":20\x7d,\"tags\":[\"a\"]\x7d", [("name", "other")]⟩ db.fresh).state.calls
      = [db.Call.UpdateSensor ⟨"s1", ⟨⟨false, 1027, 1125899906842624⟩, ⟨false, 1026, 1125899906842624⟩⟩, some ["a"]⟩] :=
  ⟨by decide,
    (update_sensor_ignores_path_name db.echo db.fresh http.ResponseWriter.new "\x7b\"name\":\"s1\",\"location\":\x7b\"latitude\":10,\"longitude\":20\x7d,\"tags\":[\"a\"]\x7d"
      "other" "nearest" (by decide)).1,
    ((update_sensor_ignores_path_name db.echo db.fresh http.ResponseWriter.new "\x7b\"name\":\"s1\",\"location\":\x7b\"latitude\":10,\"longitude\":20\x7d,\"tags\":[\"a\"]\x7d"
      "other" "nearest" (by decide)).2.2.1 ⟨"s1", ⟨⟨false, 1027, 1125899906842624⟩, ⟨false, 1026, 1125899906842624⟩⟩, some ["a"]⟩ (by decide)).2 (by decide)⟩

end EncoderAndPath

end Sensorsphere
